import Mathlib

/-!
Verification development for the go-rest-api server: a shallow embedding of the
authentication core (`pkg/auth/jwt.go`), the authorization policy
(`internal/models/user.go`), the concurrent record store (`models.Database`,
the `internal/models` database file shipped as `src/unnamed/part_009`), the
error package (`pkg/errors`, shipped as `src/unnamed/part_011`), and the HTTP
handlers wired in `cmd/server/router.go` / `internal/handlers/api_handlers.go`.

Conventions of the embedding:
* machine time is a `Nat` parameter `now` threaded explicitly;
* generated UUIDs are explicit `String` parameters (the generator is external);
* bcrypt hashing and HMAC-SHA256 are modelled symbolically as injective
  functions (the idealized collision-free model of the cryptographic
  primitives, which live in external libraries);
* JSON values are the inductive `Json`; a Go `map[string]interface{}` is an
  association list.
-/

set_option maxRecDepth 4096

/-- A JSON value, the shallow embedding of Go's `interface{}` payloads
(`encoding/json` decoding target). -/
inductive Json where
  | null : Json
  | bool (b : Bool) : Json
  | num (n : Int) : Json
  | str (s : String) : Json
  | arr (elems : List Json) : Json
  | obj (fields : List (String × Json)) : Json

namespace Json

/-- Structural equality test for `Json` (Go `reflect.DeepEqual` on decoded values). -/
def beq : Json → Json → Bool
  | .null, .null => true
  | .bool a, .bool b => a == b
  | .num a, .num b => a == b
  | .str a, .str b => a == b
  | .arr a, .arr b => beqList a b
  | .obj a, .obj b => beqFields a b
  | _, _ => false
where
  beqList : List Json → List Json → Bool
    | [], [] => true
    | x :: xs, y :: ys => beq x y && beqList xs ys
    | _, _ => false
  beqFields : List (String × Json) → List (String × Json) → Bool
    | [], [] => true
    | (k, x) :: xs, (l, y) :: ys => k == l && beq x y && beqFields xs ys
    | _, _ => false

instance : BEq Json := ⟨beq⟩

end Json

/-- `internal/models/user.go`: the `User` record. Timestamps are `Nat` seconds. -/
structure User where
  id : String
  username : String
  email : String
  password : String
  role : String
  created_by : String
  created_at : Nat
  updated_at : Nat
deriving Repr, DecidableEq

/-- `internal/models/user.go`: the `Resource` record; `data` is Go's
`map[string]interface{}` (`none` embeds the nil map). -/
structure Resource where
  id : String
  name : String
  description : String
  data : Option (List (String × Json))
  created_by : String
  created_at : Nat
  updated_at : Nat

/-- `User.IsSuperAdmin` from `internal/models/user.go`. -/
def User.IsSuperAdmin (u : User) : Bool :=
  u.role == "super_admin"

/-- `User.IsAdmin` from `internal/models/user.go` (admin or super admin). -/
def User.IsAdmin (u : User) : Bool :=
  u.role == "admin" || u.role == "super_admin"

/-- `User.CanManageUser` from `internal/models/user.go`. -/
def User.CanManageUser (u : User) (targetUser : User) : Bool :=
  if u.IsSuperAdmin then true
  else if u.IsAdmin && targetUser.created_by == u.id then true
  else u.id == targetUser.id

/-- `User.CanManageResource` from `internal/models/user.go`. -/
def User.CanManageResource (u : User) (resource : Resource) : Bool :=
  if u.IsSuperAdmin then true
  else if u.IsAdmin && resource.created_by == u.id then true
  else false

/-- `User.CanViewResource` from `internal/models/user.go`. -/
def User.CanViewResource (u : User) (resource : Resource) : Bool :=
  if u.IsSuperAdmin then true
  else if u.IsAdmin && resource.created_by == u.id then true
  else if u.role == "user" && resource.created_by == u.created_by then true
  else false

/-- `AppError` from `pkg/errors` (`src/unnamed/part_011`, second variant):
a machine-readable code, a human message and the HTTP status. -/
structure AppError where
  code : String
  message : String
  status : Nat
deriving Repr, DecidableEq

/-- `errors.Unauthorized` from `pkg/errors` (`src/unnamed/part_011`). -/
def AppError.unauthorized (msg : String) : AppError :=
  ⟨"UNAUTHORIZED", msg, 401⟩

/-- `errors.Forbidden` from `pkg/errors` (`src/unnamed/part_011`). -/
def AppError.forbidden (msg : String) : AppError :=
  ⟨"FORBIDDEN", msg, 403⟩

/-- `errors.NotFound` from `pkg/errors` (`src/unnamed/part_011`). -/
def AppError.notFound (msg : String) : AppError :=
  ⟨"NOT_FOUND", msg, 404⟩

/-- `errors.BadRequest` from `pkg/errors` (`src/unnamed/part_011`). -/
def AppError.badRequest (msg : String) : AppError :=
  ⟨"BAD_REQUEST", msg, 400⟩

/-- `errors.Conflict` from `pkg/errors` (`src/unnamed/part_011`). -/
def AppError.conflict (msg : String) : AppError :=
  ⟨"CONFLICT", msg, 409⟩

/-- `errors.InternalServerError` from `pkg/errors` (`src/unnamed/part_011`). -/
def AppError.internalServerError (msg : String) : AppError :=
  ⟨"INTERNAL_SERVER_ERROR", msg, 500⟩

/-! ## The concurrent record store (`models.Database`)

Translated from `src/unnamed/part_009`, the `internal/models` database file.
The Go maps `Users map[string]*User` (keyed by username) and
`Resources map[string]*Resource` (keyed by resource id) are embedded as
lists whose key uniqueness the operations maintain; `sync.RWMutex` locking is
not modelled — each method is the atomic state transformer it performs under
the lock. -/

/-- The store-level errors the database methods return: `models.ErrUserExists`,
`models.ErrUserNotFound` and `models.ErrResourceNotFound`, declared in
`internal/models/user.go` (`ErrLogNotFound` belongs to the unmodelled log
collection). -/
inductive DbError where
  | userExists
  | userNotFound
  | resourceNotFound
deriving Repr, DecidableEq

/-- `models.Database` from `src/unnamed/part_009`: the in-memory collections
of Users and Resources plus the `Setup` gate (the log/audit collection is not
touched by any claim and is omitted). -/
structure Database where
  users : List User
  resources : List Resource
  setupComplete : Bool

/-- `models.NewDatabase()` from `src/unnamed/part_009`: the empty store,
setup gate down. -/
def NewDatabase : Database :=
  { users := [], resources := [], setupComplete := false }

/-- `Database.IsSetupComplete` from `src/unnamed/part_009`. -/
def Database.IsSetupComplete (db : Database) : Bool :=
  db.setupComplete

/-- `Database.CompleteSetup` from `src/unnamed/part_009`: sets the gate;
no database method ever writes `Setup` back to false. -/
def Database.CompleteSetup (db : Database) : Database :=
  { db with setupComplete := true }

/-- `Database.CreateUser` from `src/unnamed/part_009`: `ErrUserExists` when
the username key is taken, otherwise inserts with `CreatedAt`/`UpdatedAt`
stamped to now. -/
def Database.CreateUser (db : Database) (now : Nat) (u : User) :
    Except DbError Unit × Database :=
  if db.users.any (fun v => v.username == u.username) then
    (.error .userExists, db)
  else
    (.ok (), { db with
      users := db.users ++ [{ u with created_at := now, updated_at := now }] })

/-- `Database.GetUser` from `src/unnamed/part_009`: lookup by the username
key, `ErrUserNotFound` when absent. -/
def Database.GetUser (db : Database) (username : String) : Except DbError User :=
  match db.users.find? (fun u => u.username == username) with
  | some u => .ok u
  | none => .error .userNotFound

/-- `Database.GetUserByID` from `src/unnamed/part_009`: a linear scan of the
collection for a matching ID. -/
def Database.GetUserByID (db : Database) (id : String) : Except DbError User :=
  match db.users.find? (fun u => u.id == id) with
  | some u => .ok u
  | none => .error .userNotFound

/-- The field merge performed by `Database.UpdateUser` (`src/unnamed/part_009`):
only non-empty email, password and role are written, `UpdatedAt` is always
refreshed, and username and id are never touched. -/
def mergeUser (u : User) (updates : User) (now : Nat) : User :=
  { u with
    email := if updates.email ≠ "" then updates.email else u.email
    password := if updates.password ≠ "" then updates.password else u.password
    role := if updates.role ≠ "" then updates.role else u.role
    updated_at := now }

/-- `Database.UpdateUser` from `src/unnamed/part_009`: `ErrUserNotFound` when
the username key is absent, otherwise the in-place field merge above. -/
def Database.UpdateUser (db : Database) (now : Nat) (username : String)
    (updates : User) : Except DbError Unit × Database :=
  if db.users.any (fun u => u.username == username) then
    (.ok (), { db with
      users := db.users.map (fun u =>
        if u.username == username then mergeUser u updates now else u) })
  else
    (.error .userNotFound, db)

/-- `Database.DeleteUser` from `src/unnamed/part_009`: removes the record
keyed by username, `ErrUserNotFound` when absent; the resources collection is
not touched. -/
def Database.DeleteUser (db : Database) (username : String) :
    Except DbError Unit × Database :=
  if db.users.any (fun u => u.username == username) then
    (.ok (), { db with
      users := db.users.filter (fun u => ¬ u.username == username) })
  else
    (.error .userNotFound, db)

/-- `Database.DeleteUserWithCascade` from `src/unnamed/part_009`: when the
deleted user satisfies `IsAdmin`, additionally removes every user and every
resource whose `CreatedBy` equals the deleted user's id. -/
def Database.DeleteUserWithCascade (db : Database) (username : String) :
    Except DbError Unit × Database :=
  match db.users.find? (fun u => u.username == username) with
  | none => (.error .userNotFound, db)
  | some u =>
    let remaining := db.users.filter (fun v => ¬ v.username == username)
    if u.IsAdmin then
      (.ok (), { db with
        users := remaining.filter (fun v => ¬ v.created_by == u.id)
        resources := db.resources.filter (fun r => ¬ r.created_by == u.id) })
    else
      (.ok (), { db with users := remaining })

/-- `Database.CreateResource` from `src/unnamed/part_009` (lines 123–131):
unlike `CreateUser`, there is no duplicate-key check — the record is stamped
with `CreatedAt`/`UpdatedAt` = now and written to `Resources[resource.ID]`
unconditionally, overwriting any record already stored under that id, and the
returned error is always nil.  In the list embedding the map write replaces
the entry with the matching id when one exists and appends otherwise. -/
def Database.CreateResource (db : Database) (now : Nat) (r : Resource) :
    Except DbError Unit × Database :=
  let stamped : Resource := { r with created_at := now, updated_at := now }
  (.ok (), { db with
    resources :=
      if db.resources.any (fun x => x.id == r.id) then
        db.resources.map (fun x => if x.id == r.id then stamped else x)
      else
        db.resources ++ [stamped] })

/-- `Database.GetResource` from `src/unnamed/part_009`: lookup by the
resource-id key, `ErrResourceNotFound` when absent. -/
def Database.GetResource (db : Database) (id : String) : Except DbError Resource :=
  match db.resources.find? (fun r => r.id == id) with
  | some r => .ok r
  | none => .error .resourceNotFound

/-- The field merge performed by `Database.UpdateResource`
(`src/unnamed/part_009`): only non-empty name/description and non-nil data
are written; `UpdatedAt` is always refreshed. -/
def mergeResource (r : Resource) (updates : Resource) (now : Nat) : Resource :=
  { r with
    name := if updates.name ≠ "" then updates.name else r.name
    description := if updates.description ≠ "" then updates.description else r.description
    data := match updates.data with
      | some d => some d
      | none => r.data
    updated_at := now }

/-- `Database.UpdateResource` from `src/unnamed/part_009`:
`ErrResourceNotFound` when the id key is absent, otherwise the in-place field
merge above. -/
def Database.UpdateResource (db : Database) (now : Nat) (id : String)
    (updates : Resource) : Except DbError Unit × Database :=
  if db.resources.any (fun r => r.id == id) then
    (.ok (), { db with
      resources := db.resources.map (fun r =>
        if r.id == id then mergeResource r updates now else r) })
  else
    (.error .resourceNotFound, db)

/-- `Database.DeleteResource` from `src/unnamed/part_009`: removes the record
keyed by resource id, `ErrResourceNotFound` when absent. -/
def Database.DeleteResource (db : Database) (id : String) :
    Except DbError Unit × Database :=
  if db.resources.any (fun r => r.id == id) then
    (.ok (), { db with resources := db.resources.filter (fun r => ¬ r.id == id) })
  else
    (.error .resourceNotFound, db)

/-- `Database.ListResources` from `src/unnamed/part_009`: the full snapshot. -/
def Database.ListResources (db : Database) : List Resource :=
  db.resources

/-- `Database.ListResourcesByCreator` from `src/unnamed/part_009` (lines
660–675): a super admin sees every resource; every other caller sees exactly
the resources whose `CreatedBy` equals the given creator id. -/
def Database.ListResourcesByCreator (db : Database) (creatorID : String)
    (isSuperAdmin : Bool) : List Resource :=
  db.resources.filter (fun r => isSuperAdmin || r.created_by == creatorID)

/-- `Database.GetResourceWithOwnership` from `src/unnamed/part_009` (lines
678–699): the ownership-aware lookup.  A missing id is `ErrResourceNotFound`;
a super admin sees any resource; otherwise the resource is visible when its
`CreatedBy` equals the requester's id or the requester's own `CreatedBy`
(no role gating), and an invisible resource is answered with
`ErrResourceNotFound` — never a Forbidden — to hide its existence. -/
def Database.GetResourceWithOwnership (db : Database)
    (resourceID requesterID : String) (isSuperAdmin : Bool)
    (requesterCreatedBy : String) : Except DbError Resource :=
  match db.resources.find? (fun r => r.id == resourceID) with
  | none => .error .resourceNotFound
  | some resource =>
    if isSuperAdmin then .ok resource
    else if resource.created_by == requesterID then .ok resource
    else if resource.created_by == requesterCreatedBy then .ok resource
    else .error .resourceNotFound

/-! ## Credential service (`pkg/auth/jwt.go`)

Tokens are modelled at the byte level: the JWT payload is an injectively
encoded byte list (`List Nat`), the signature the symbolic HMAC-SHA256 of the
payload under the server secret, and the header's algorithm a string field.
The base64/JSON wire compaction performed by the external `golang-jwt`
library is abstracted away; byte-level integrity of payload and signature is
retained. -/

/-- The JWT claim set of `pkg/auth/jwt.go` (`Claims`): `user_id`, `username`,
`roles`, plus the registered claims `iss`, `iat`, `nbf`, `exp` (`sub` is set
to the user id by `GenerateToken` and is not read back; it is omitted). -/
structure TokenClaims where
  user_id : String
  username : String
  roles : List String
  iss : String
  iat : Nat
  nbf : Nat
  exp : Nat
deriving Repr, DecidableEq

/-- Length-prefixed byte encoding of a string (code points as bytes). -/
def encStr (s : String) : List Nat :=
  s.data.length :: s.data.map Char.toNat

/-- Decoder matching `encStr`; returns the string and the remaining bytes. -/
def decStr (l : List Nat) : Option (String × List Nat) :=
  match l with
  | [] => none
  | n :: rest =>
    if n ≤ rest.length then
      some (String.mk ((rest.take n).map Char.ofNat), rest.drop n)
    else none

/-- Count-prefixed encoding of a list of strings. -/
def encStrList (l : List String) : List Nat :=
  l.length :: (l.map encStr).flatten

/-- Decoder for a fixed count of strings. -/
def decStrs : Nat → List Nat → Option (List String × List Nat)
  | 0, rest => some ([], rest)
  | n + 1, rest =>
    match decStr rest with
    | none => none
    | some (s, rest₁) =>
      match decStrs n rest₁ with
      | none => none
      | some (ss, rest₂) => some (s :: ss, rest₂)

/-- Decoder matching `encStrList`. -/
def decStrList (l : List Nat) : Option (List String × List Nat) :=
  match l with
  | [] => none
  | n :: rest => decStrs n rest

/-- The serialized claim set: every claim field, injectively framed. -/
def encClaims (c : TokenClaims) : List Nat :=
  encStr c.user_id ++ encStr c.username ++ encStrList c.roles ++
    encStr c.iss ++ [c.iat, c.nbf, c.exp]

/-- Decoder matching `encClaims` (deserialization step of `ValidateToken`). -/
def decClaims (l : List Nat) : Option TokenClaims :=
  match decStr l with
  | none => none
  | some (uid, r₁) =>
    match decStr r₁ with
    | none => none
    | some (uname, r₂) =>
      match decStrList r₂ with
      | none => none
      | some (roles, r₃) =>
        match decStr r₃ with
        | none => none
        | some (iss, r₄) =>
          match r₄ with
          | [iat, nbf, exp] => some ⟨uid, uname, roles, iss, iat, nbf, exp⟩
          | _ => none

/-- Symbolic model of HMAC-SHA256: a keyed MAC treated as collision-free
(injective in key and message), the standard idealization of the primitive
provided by the external crypto library. -/
def hmacSHA256 (secret msg : List Nat) : List Nat :=
  secret.length :: (secret ++ msg)

/-- A signed token: algorithm header, serialized claims, signature.  This is
the structured content of the compact JWS string produced by `SignedString`. -/
structure Token where
  alg : String
  payload : List Nat
  sig : List Nat
deriving Repr, DecidableEq

/-- `AuthService` of `pkg/auth/jwt.go`: the signing secret and configured TTL
(`jwtSecret`, `jwtExpiration`); the bcrypt cost is irrelevant to the token
operations and omitted. -/
structure AuthService where
  jwtSecret : List Nat
  jwtExpiration : Nat

/-- `AuthService.GenerateToken` from `pkg/auth/jwt.go`: claims with
`iat = nbf = now`, `exp = now + jwtExpiration`, issuer `go-rest-api`,
signed with HS256 under the service secret. -/
def AuthService.GenerateToken (a : AuthService) (now : Nat)
    (userID username : String) (roles : List String) : Token :=
  let c : TokenClaims :=
    { user_id := userID, username := username, roles := roles
      iss := "go-rest-api", iat := now, nbf := now, exp := now + a.jwtExpiration }
  { alg := "HS256"
    payload := encClaims c
    sig := hmacSHA256 a.jwtSecret (encClaims c) }

/-- `AuthService.ValidateToken` from `pkg/auth/jwt.go`: reject any
non-HMAC signing algorithm (the keyfunc's `SigningMethodHMAC` check), verify
the signature under the service secret, deserialize the claims, and check
the validity window (`nbf ≤ now < exp`, the `jwt/v5` registered-claim
checks).  Any failure collapses to `none` (the single Unauthorized outcome). -/
def AuthService.ValidateToken (a : AuthService) (now : Nat) (t : Token) :
    Option TokenClaims :=
  if t.alg ≠ "HS256" then none
  else if t.sig ≠ hmacSHA256 a.jwtSecret t.payload then none
  else
    match decClaims t.payload with
    | none => none
    | some c => if c.nbf ≤ now ∧ now < c.exp then some c else none

/-- Symbolic model of `bcrypt.GenerateFromPassword` (external library):
an injective, non-identity one-way image of the password. -/
def hashPassword (password : String) : String :=
  String.mk ('$' :: '2' :: 'a' :: '$' :: password.data)

/-- `AuthService.CheckPassword` from `pkg/auth/jwt.go`, under the symbolic
bcrypt model: the comparison succeeds exactly on the matching password. -/
def checkPassword (password hash : String) : Bool :=
  hash == hashPassword password

/-! ### Bearer-token extraction

Go's `strings.Split(s, " ")`, `strings.TrimSpace` and `strings.ToLower` are
translated to structurally recursive character-list functions so that both
`ExtractBearerToken` variants of `pkg/auth/jwt.go` are kernel-computable. -/

/-- Go `strings.Split(s, " ")` on a character list: split at every space,
keeping empty fields (`strings.Split("", " ") = [""]`). -/
def splitSpace : List Char → List (List Char)
  | [] => [[]]
  | c :: rest =>
    if c = ' ' then [] :: splitSpace rest
    else
      match splitSpace rest with
      | [] => [[c]]
      | p :: ps => (c :: p) :: ps

/-- Go `strings.Split(s, " ")`. -/
def goSplitSpace (s : String) : List String :=
  (splitSpace s.data).map String.mk

/-- A whitespace character in the sense of Go `strings.TrimSpace`
(the ASCII cases). -/
def isSpaceChar (c : Char) : Bool :=
  c = ' ' || c = '\t' || c = '\n' || c = '\r'

/-- Go `strings.TrimSpace` (ASCII whitespace). -/
def goTrimSpace (s : String) : String :=
  String.mk (((s.data.dropWhile isSpaceChar).reverse.dropWhile isSpaceChar).reverse)

/-- Go `strings.ToLower` on one ASCII character. -/
def lowerChar (c : Char) : Char :=
  if 'A' ≤ c ∧ c ≤ 'Z' then Char.ofNat (c.toNat + 32) else c

/-- Go `strings.ToLower` (ASCII). -/
def goToLower (s : String) : String :=
  String.mk (s.data.map lowerChar)

/-- The first `ExtractBearerToken` of `pkg/auth/jwt.go` (lines 106–117):
requires exactly two space-separated parts with the scheme written literally
`Bearer` (case-sensitive), and returns the second part unchecked. -/
def ExtractBearerToken₁ (authHeader : String) : Except String String :=
  if authHeader = "" then .error "authorization header is required"
  else
    let parts := goSplitSpace authHeader
    if parts.length ≠ 2 ∨ parts.headD "" ≠ "Bearer" then
      .error "authorization header must be Bearer token"
    else .ok (parts.getD 1 "")

/-- The second `ExtractBearerToken` of `pkg/auth/jwt.go` (lines 242–259, the
variant whose `*errors.AppError` results the `middleware.Auth` type assertion
requires): two space-separated parts, scheme compared lowercased, token
trimmed and required non-empty. -/
def ExtractBearerToken₂ (authHeader : String) : Except AppError String :=
  if authHeader = "" then
    .error (AppError.unauthorized "Authorization header is required")
  else
    let parts := goSplitSpace authHeader
    if parts.length ≠ 2 ∨ goToLower (parts.headD "") ≠ "bearer" then
      .error (AppError.unauthorized "Invalid authorization header format")
    else
      let token := goTrimSpace (parts.getD 1 "")
      if token = "" then .error (AppError.unauthorized "Token is required")
      else .ok token

/-! ## Request validation structures (`pkg/validation/validator.go` and the
inline request structs of `internal/handlers/api_handlers.go`)

JSON decoding is the external collaborator; a handler input of `none` embeds
a malformed body.  The per-field tag constraints (`required`, `min`, `max`,
`alphanum`, `oneof=admin user`) are translated to decidable predicates; the
`email` format rule is an external rule engine detail and is embedded as
non-emptiness. -/

/-- `validation.RegisterRequest` (setup payload). -/
structure RegisterRequest where
  username : String
  email : String
  password : String
deriving Repr, DecidableEq

/-- Tag constraints of `RegisterRequest`: username `required,min=3,max=50,alphanum`;
email `required,email`; password `required,min=8,max=100`. -/
def validRegisterRequest (r : RegisterRequest) : Bool :=
  3 ≤ r.username.length && r.username.length ≤ 50 &&
    r.username.data.all Char.isAlphanum &&
    r.email ≠ "" &&
    8 ≤ r.password.length && r.password.length ≤ 100

/-- `validation.LoginRequest`. -/
structure LoginRequest where
  username : String
  password : String
deriving Repr, DecidableEq

/-- Tag constraints of `LoginRequest`: username `required,min=3,max=50`;
password `required,min=6,max=100`. -/
def validLoginRequest (r : LoginRequest) : Bool :=
  3 ≤ r.username.length && r.username.length ≤ 50 &&
    6 ≤ r.password.length && r.password.length ≤ 100

/-- The inline request struct of `APIHandlers.CreateUser`. -/
structure CreateUserRequest where
  username : String
  email : String
  password : String
  role : String
deriving Repr, DecidableEq

/-- Tag constraints of the `CreateUser` request: username `required,min=3,max=50`;
email `required,email`; password `required,min=6`; role `required,oneof=admin user`. -/
def validCreateUserRequest (r : CreateUserRequest) : Bool :=
  3 ≤ r.username.length && r.username.length ≤ 50 &&
    r.email ≠ "" &&
    6 ≤ r.password.length &&
    (r.role == "admin" || r.role == "user")

/-- The inline request struct of `APIHandlers.UpdateUserByAdmin` (all fields
optional; the username field carries no validation tag and is never used). -/
structure AdminUpdateUserRequest where
  username : String
  email : String
  password : String
  role : String
deriving Repr, DecidableEq

/-- Tag constraints of the `UpdateUserByAdmin` request: email `omitempty,email`;
password `omitempty,min=6`; role `omitempty,oneof=admin user`. -/
def validAdminUpdateUserRequest (r : AdminUpdateUserRequest) : Bool :=
  (r.password == "" || 6 ≤ r.password.length) &&
    (r.role == "" || r.role == "admin" || r.role == "user")

/-- The inline request struct of `APIHandlers.UpdateMe`. -/
structure UpdateMeRequest where
  email : String
  password : String
deriving Repr, DecidableEq

/-- Tag constraints of the `UpdateMe` request: email `omitempty,email`;
password `omitempty,min=6`. -/
def validUpdateMeRequest (r : UpdateMeRequest) : Bool :=
  r.password == "" || 6 ≤ r.password.length

/-- The inline request struct of the resource create/update handlers. -/
structure ResourceRequest where
  name : String
  description : String
  data : Option (List (String × Json))

/-- Tag constraints of the resource request: name `required,min=1,max=100`. -/
def validResourceRequest (r : ResourceRequest) : Bool :=
  1 ≤ r.name.length && r.name.length ≤ 100

/-- `errors.ValidationError` from `pkg/errors` (`src/unnamed/part_011`), with
the external rule engine's message text abstracted to a fixed string. -/
def validationFailure : AppError :=
  ⟨"VALIDATION_ERROR", "validation error", 400⟩

/-- `Claims.HasRole` from `pkg/auth/jwt.go`. -/
def TokenClaims.HasRole (c : TokenClaims) (role : String) : Bool :=
  c.roles.contains role

/-- `Claims.HasAnyRole` from `pkg/auth/jwt.go`. -/
def TokenClaims.HasAnyRole (c : TokenClaims) (roles : List String) : Bool :=
  roles.any (fun role => c.HasRole role)

/-! ## HTTP handlers (`internal/handlers/api_handlers.go`) and the router
wiring (`cmd/server/router.go`)

The server's mutable state is the store plus the dynamic-endpoint registry
(the routes `AddDynamicEndpoint` has bound on the protected subrouter, as
`(endpoint, method, response)` triples).  Each handler is the pure state
transformer of its Go function; `now` and generated ids are parameters. -/

/-- The server state: the singleton store and the dynamic routes registered
on the protected subrouter (`DynamicRouter` of `cmd/server/router.go`). -/
structure ServerState where
  db : Database
  registry : List (String × String × Json)

/-- The initial server state: `NewDatabase()` and no dynamic routes
(`LoadExistingEndpoints` at startup re-registers the store's endpoints; the
store starts empty). -/
def initState : ServerState :=
  { db := NewDatabase, registry := [] }

/-- Outcome of `APIHandlers.Setup`/`Login`, written via
`writeStandardError`/`writeStandardResponse`: an HTTP status plus message, or
the success payload. -/
inductive SetupOutcome where
  | errorOut (status : Nat) (message : String)
  | accepted
deriving Repr, DecidableEq

/-- `APIHandlers.Setup` from `internal/handlers/api_handlers.go` (lines
41–89): refuse when the gate is up ("Setup already completed", status 400);
otherwise validate, hash, create the admin user `{ID: "1", Role: "admin"}`,
and raise the gate. -/
def Setup (s : ServerState) (now : Nat) (req : Option RegisterRequest) :
    SetupOutcome × ServerState :=
  if s.db.IsSetupComplete then
    (.errorOut 400 "Setup already completed", s)
  else
    match req with
    | none => (.errorOut 400 "validation error", s)
    | some r =>
      if ¬ validRegisterRequest r then (.errorOut 400 "validation error", s)
      else
        let adminUser : User :=
          { id := "1", username := r.username, email := r.email
            password := hashPassword r.password, role := "admin"
            created_by := "", created_at := 0, updated_at := 0 }
        match s.db.CreateUser now adminUser with
        | (.error _, _) => (.errorOut 500 "Failed to create admin user", s)
        | (.ok _, db₁) => (.accepted, { s with db := db₁.CompleteSetup })

/-- Outcome of `APIHandlers.Login`: an error status/message or the signed
token (status 201). -/
inductive LoginOutcome where
  | errorOut (status : Nat) (message : String)
  | created (token : Token)
deriving Repr, DecidableEq

/-- The role-claim list computed by `APIHandlers.Login` (lines 114–118):
`roles := []string{"user"}`, and `"admin"` is appended exactly when the
stored role is `"admin"`. -/
def loginRoles (role : String) : List String :=
  let roles := ["user"]
  if role == "admin" then roles ++ ["admin"] else roles

/-- `APIHandlers.Login` from `internal/handlers/api_handlers.go` (lines
94–132): look up the user, check the password (the same "Invalid credentials"
outcome for unknown username and wrong password), and issue a token whose
role claims are recomputed from the stored role.  No state is written. -/
def Login (s : ServerState) (a : AuthService) (now : Nat)
    (req : Option LoginRequest) : LoginOutcome :=
  match req with
  | none => .errorOut 400 "validation error"
  | some r =>
    if ¬ validLoginRequest r then .errorOut 400 "validation error"
    else
      match s.db.GetUser r.username with
      | .error _ => .errorOut 401 "Invalid credentials"
      | .ok user =>
        if ¬ checkPassword r.password user.password then
          .errorOut 401 "Invalid credentials"
        else
          .created (a.GenerateToken now user.id user.username (loginRoles user.role))

/-- `APIHandlers.CreateUser` from `internal/handlers/api_handlers.go` (lines
151–201, admin only): validate (role constrained to `admin` or `user`), hash,
insert under a generated id; `ErrUserExists` maps to BadRequest. -/
def CreateUserHandler (s : ServerState) (now : Nat) (newID : String)
    (req : Option CreateUserRequest) : Except AppError User × ServerState :=
  match req with
  | none => (.error validationFailure, s)
  | some r =>
    if ¬ validCreateUserRequest r then (.error validationFailure, s)
    else
      let user : User :=
        { id := newID, username := r.username, email := r.email
          password := hashPassword r.password, role := r.role
          created_by := "", created_at := 0, updated_at := 0 }
      match s.db.CreateUser now user with
      | (.error .userExists, _) =>
        (.error (AppError.badRequest "Username already exists"), s)
      | (.error _, _) =>
        (.error (AppError.internalServerError "Failed to create user"), s)
      | (.ok _, db₁) => (.ok user, { s with db := db₁ })

/-- `APIHandlers.UpdateUserByAdmin` from `internal/handlers/api_handlers.go`
(lines 216–273): find the target by id, build an updates record holding only
the supplied fields (password hashed), and merge it through
`Database.UpdateUser`. -/
def UpdateUserByAdminHandler (s : ServerState) (now : Nat) (userID : String)
    (req : Option AdminUpdateUserRequest) : Except AppError Unit × ServerState :=
  match req with
  | none => (.error validationFailure, s)
  | some r =>
    if ¬ validAdminUpdateUserRequest r then (.error validationFailure, s)
    else
      match s.db.GetUserByID userID with
      | .error _ => (.error (AppError.notFound "User not found"), s)
      | .ok user =>
        let updates : User :=
          { id := "", username := "", email := r.email
            password := if r.password ≠ "" then hashPassword r.password else ""
            role := r.role, created_by := "", created_at := 0, updated_at := 0 }
        match s.db.UpdateUser now user.username updates with
        | (.error _, _) =>
          (.error (AppError.internalServerError "Failed to update user"), s)
        | (.ok _, db₁) => (.ok (), { s with db := db₁ })

/-- `APIHandlers.UpdateMe` from `internal/handlers/api_handlers.go` (lines
309–360): like the admin update but keyed by the caller's claims and without
a role field. -/
def UpdateMeHandler (s : ServerState) (now : Nat) (claims : TokenClaims)
    (req : Option UpdateMeRequest) : Except AppError Unit × ServerState :=
  match req with
  | none => (.error validationFailure, s)
  | some r =>
    if ¬ validUpdateMeRequest r then (.error validationFailure, s)
    else
      match s.db.GetUserByID claims.user_id with
      | .error _ => (.error (AppError.notFound "User not found"), s)
      | .ok user =>
        let updates : User :=
          { id := "", username := "", email := r.email
            password := if r.password ≠ "" then hashPassword r.password else ""
            role := "", created_by := "", created_at := 0, updated_at := 0 }
        match s.db.UpdateUser now user.username updates with
        | (.error _, _) =>
          (.error (AppError.internalServerError "Failed to update user"), s)
        | (.ok _, db₁) => (.ok (), { s with db := db₁ })

/-- `APIHandlers.DeleteUser` from `internal/handlers/api_handlers.go` (lines
276–304): resolve the path id to a user, then remove that user by username
via the plain (non-cascading) `Database.DeleteUser`; on success the response
echoes the deleted user id. -/
def DeleteUserHandler (s : ServerState) (userID : String) :
    Except AppError String × ServerState :=
  match s.db.GetUserByID userID with
  | .error _ => (.error (AppError.notFound "User not found"), s)
  | .ok user =>
    match s.db.DeleteUser user.username with
    | (.error _, _) =>
      (.error (AppError.internalServerError "Failed to delete user"), s)
    | (.ok _, db₁) => (.ok userID, { s with db := db₁ })

/-- `APIHandlers.GetResource` from `internal/handlers/api_handlers.go` (lines
408–420): a plain store lookup by id — the handler consults neither the
caller's claims nor any ownership data. -/
def GetResourceHandler (s : ServerState) (resourceID : String) :
    Except AppError Resource :=
  match s.db.GetResource resourceID with
  | .error _ => .error (AppError.notFound "Resource not found")
  | .ok r => .ok r

/-- Key lookup in a decoded `map[string]interface{}`. -/
def lookupData (m : List (String × Json)) (k : String) : Option Json :=
  (m.find? (fun p => p.1 == k)).map (fun p => p.2)

/-- The endpoint extraction shared by the dynamic-endpoint handlers: the
`data["endpoint"].(string)` / `data["method"].(string)` / `data["response"]`
type-assertion cascade of `internal/handlers/api_handlers.go`. -/
def dataEndpoint (d : Option (List (String × Json))) :
    Option (String × String × Json) :=
  match d with
  | none => none
  | some m =>
    match lookupData m "endpoint" with
    | some (Json.str e) =>
      (match lookupData m "method" with
        | some (Json.str mth) =>
          (match lookupData m "response" with
            | some resp => some (e, mth, resp)
            | none => none)
        | _ => none)
    | _ => none

/-- `APIHandlers.CreateResourceWithDynamicEndpoint` from
`internal/handlers/api_handlers.go` (lines 728–773), the handler wired to
`POST /v1/resources`: create the resource owned by the caller, then — with no
conflict validation of any kind — register its endpoint data as a live route. -/
def CreateResourceWithDynamicEndpoint (s : ServerState) (now : Nat)
    (claims : TokenClaims) (newID : String) (req : Option ResourceRequest) :
    Except AppError Resource × ServerState :=
  match req with
  | none => (.error validationFailure, s)
  | some r =>
    if ¬ validResourceRequest r then (.error validationFailure, s)
    else
      let resource : Resource :=
        { id := newID, name := r.name, description := r.description
          data := r.data, created_by := claims.user_id
          created_at := 0, updated_at := 0 }
      match s.db.CreateResource now resource with
      | (.error _, _) =>
        (.error (AppError.internalServerError "Failed to create resource"), s)
      | (.ok _, db₁) =>
        match dataEndpoint resource.data with
        | some (e, mth, resp) =>
          (.ok resource, { db := db₁, registry := s.registry ++ [(e, mth, resp)] })
        | none => (.ok resource, { s with db := db₁ })

/-- `APIHandlers.UpdateResourceWithDynamicEndpoint` from
`internal/handlers/api_handlers.go` (lines 776–846): permission check
(creator or any `admin` role claim), merge through `Database.UpdateResource`,
then register the updated endpoint data as an additional route (the old
route is not removed — gorilla/mux has no removal primitive). -/
def UpdateResourceWithDynamicEndpoint (s : ServerState) (now : Nat)
    (claims : TokenClaims) (resourceID : String) (req : Option ResourceRequest) :
    Except AppError Unit × ServerState :=
  match req with
  | none => (.error validationFailure, s)
  | some r =>
    match s.db.GetResource resourceID with
    | .error _ => (.error (AppError.notFound "Resource not found"), s)
    | .ok resource =>
      if resource.created_by ≠ claims.user_id ∧ ¬ claims.HasRole "admin" then
        (.error (AppError.forbidden "You can only update your own resources"), s)
      else
        let updates : Resource :=
          { id := "", name := r.name, description := r.description
            data := r.data, created_by := "", created_at := 0, updated_at := 0 }
        match s.db.UpdateResource now resourceID updates with
        | (.error _, _) =>
          (.error (AppError.internalServerError "Failed to update resource"), s)
        | (.ok _, db₁) =>
          match db₁.GetResource resourceID with
          | .error _ => (.ok (), { s with db := db₁ })
          | .ok updated =>
            match dataEndpoint updated.data with
            | some (e, mth, resp) =>
              (.ok (), { db := db₁, registry := s.registry ++ [(e, mth, resp)] })
            | none => (.ok (), { s with db := db₁ })

/-- `APIHandlers.DeleteResourceWithDynamicEndpoint` from
`internal/handlers/api_handlers.go` (lines 849–894): permission check, then
`RemoveDynamicEndpoint` — whose `DynamicRouter` implementation in
`cmd/server/router.go` (lines 44–48) is an empty body, so the registry is
untouched — and the store deletion. -/
def DeleteResourceWithDynamicEndpoint (s : ServerState)
    (claims : TokenClaims) (resourceID : String) :
    Except AppError String × ServerState :=
  match s.db.GetResource resourceID with
  | .error _ => (.error (AppError.notFound "Resource not found"), s)
  | .ok resource =>
    if resource.created_by ≠ claims.user_id ∧ ¬ claims.HasRole "admin" then
      (.error (AppError.forbidden "You can only delete your own resources"), s)
    else
      match s.db.DeleteResource resourceID with
      | (.error _, _) =>
        (.error (AppError.internalServerError "Failed to delete resource"), s)
      | (.ok _, db₁) => (.ok resourceID, { s with db := db₁ })

/-! ## Auth middleware and dynamic-endpoint dispatch -/

/-- `middleware.Auth` from `pkg/middleware/middleware.go`: extract the bearer
token from the Authorization header, validate it, and hand the claims to the
inner handler; any failure short-circuits with an Unauthorized error.  The
compact-JWS string parsing performed inside the external `golang-jwt` library
is the `jwtDecode` parameter. -/
def AuthMiddleware (a : AuthService) (now : Nat)
    (jwtDecode : String → Option Token) (authHeader : String) :
    Except AppError TokenClaims :=
  match ExtractBearerToken₂ authHeader with
  | .error e => .error e
  | .ok tokenString =>
    match jwtDecode tokenString with
    | none => .error (AppError.unauthorized "Invalid or expired token")
    | some t =>
      match a.ValidateToken now t with
      | none => .error (AppError.unauthorized "Invalid or expired token")
      | some claims => .ok claims

/-- The success payload written by the handler closure built in
`APIHandlers.AddDynamicEndpoint` (lines 659–699): the canned response plus
`user`/`user_id` echoed from the request's validated claims. -/
structure DynSuccess where
  status : Nat
  response : Json
  user : String
  user_id : String
  endpoint : String
  method : String

/-- Result of dispatching a request to a registered dynamic endpoint. -/
inductive DynResult where
  | ok (body : DynSuccess)
  | err (e : AppError)

/-- Dispatch of a request to a registered dynamic endpoint: dynamic routes
are bound on the protected subrouter (`cmd/server/router.go` lines 66–69 and
104), so `middleware.Auth` runs first; only when it succeeds is the canned
response evaluated into the reply, together with the caller's `user` and
`user_id` claims. -/
def dynamicDispatch (a : AuthService) (now : Nat)
    (jwtDecode : String → Option Token) (authHeader : String)
    (endpoint method : String) (response : Json) : DynResult :=
  match AuthMiddleware a now jwtDecode authHeader with
  | .error e => .err e
  | .ok claims =>
    .ok { status := 200, response := response
          user := claims.username, user_id := claims.user_id
          endpoint := "/v1" ++ endpoint, method := method }

/-! ## Reserved static routes and the conflict policy -/

/-- The static routes bound by `setupRoutes` in `cmd/server/router.go`
(paths relative to the `/v1` prefix, as dynamic endpoint paths are). -/
def reservedRoutes : List (String × String) :=
  [("/setup", "POST"),
   ("/auth/login", "POST"),
   ("/auth/me", "GET"),
   ("/users/me", "PUT"),
   ("/admin/users", "POST"),
   ("/admin/users", "GET"),
   ("/admin/users/{id}", "PUT"),
   ("/admin/users/{id}", "DELETE"),
   ("/resources", "POST"),
   ("/resources", "GET"),
   ("/resources/{id}", "GET"),
   ("/resources/{id}", "PUT"),
   ("/resources/{id}", "DELETE"),
   ("/status", "GET"),
   ("/health", "GET")]

/-- `Database.GetExistingRoutes` from `src/unnamed/part_009` (lines 743–754):
a hard-coded list of existing API routes used for conflict detection. -/
def Database.GetExistingRoutes (db : Database) : List String :=
  ["/setup",
   "/login",
   "/status",
   "/health",
   "/v1/ping",
   "/v1/users/me",
   "/v1/resources",
   "/v1/admin/users"]

/-- `Database.ValidateEndpointConflict` from `src/unnamed/part_009` (lines
757–782): true exactly when the endpoint (the HTTP method plays no part)
equals one of the hard-coded routes, or `/v1` + such a route, or the endpoint
datum of a stored resource, or `/v1` + such a datum. -/
def Database.ValidateEndpointConflict (db : Database) (endpoint : String) :
    Bool :=
  let existingRoutes := db.GetExistingRoutes
  if existingRoutes.any (fun route =>
      endpoint == route || endpoint == "/v1" ++ route) then
    true
  else
    db.resources.any (fun r =>
      match r.data with
      | none => false
      | some m =>
        match lookupData m "endpoint" with
        | some (Json.str existingEndpoint) =>
          endpoint == existingEndpoint || endpoint == "/v1" ++ existingEndpoint
        | _ => false)

/-! ## The operation alphabet of the HTTP surface

One constructor per handler wired in `setupRoutes`
(`cmd/server/router.go` lines 59–101); read-only handlers (`GetMe`,
`ListUsers`, `ListResources`, `GetResource`, `GetStatus`, `GetHealth`,
`Login`) write no state. -/

/-- A single request handled by the HTTP surface. -/
inductive Op where
  | setup (now : Nat) (req : Option RegisterRequest)
  | login (now : Nat) (req : Option LoginRequest)
  | getMe (claims : TokenClaims)
  | createUser (now : Nat) (newID : String) (req : Option CreateUserRequest)
  | listUsers
  | updateUserByAdmin (now : Nat) (userID : String) (req : Option AdminUpdateUserRequest)
  | deleteUser (userID : String)
  | updateMe (now : Nat) (claims : TokenClaims) (req : Option UpdateMeRequest)
  | createResource (now : Nat) (claims : TokenClaims) (newID : String) (req : Option ResourceRequest)
  | listResources
  | getResource (resourceID : String)
  | updateResource (now : Nat) (claims : TokenClaims) (resourceID : String) (req : Option ResourceRequest)
  | deleteResource (claims : TokenClaims) (resourceID : String)
  | getStatus
  | getHealth

/-- The state transformer of one handled request (responses projected away). -/
def applyOp (s : ServerState) : Op → ServerState
  | .setup now req => (Setup s now req).2
  | .login _ _ => s
  | .getMe _ => s
  | .createUser now newID req => (CreateUserHandler s now newID req).2
  | .listUsers => s
  | .updateUserByAdmin now userID req => (UpdateUserByAdminHandler s now userID req).2
  | .deleteUser userID => (DeleteUserHandler s userID).2
  | .updateMe now claims req => (UpdateMeHandler s now claims req).2
  | .createResource now claims newID req =>
    (CreateResourceWithDynamicEndpoint s now claims newID req).2
  | .listResources => s
  | .getResource _ => s
  | .updateResource now claims resourceID req =>
    (UpdateResourceWithDynamicEndpoint s now claims resourceID req).2
  | .deleteResource claims resourceID =>
    (DeleteResourceWithDynamicEndpoint s claims resourceID).2
  | .getStatus => s
  | .getHealth => s

/-- The states the process can be in: the initial state and everything the
handlers can produce from it. -/
inductive Reachable : ServerState → Prop where
  | init : Reachable initState
  | step {s : ServerState} (h : Reachable s) (op : Op) : Reachable (applyOp s op)

/-- The invariant carried by C9: every stored user's role is `admin` or `user`
(no stored record ever holds `super_admin`). -/
def ValidRoles (db : Database) : Prop :=
  ∀ u ∈ db.users, u.role = "admin" ∨ u.role = "user"

theorem decStr_encStr (s : String) (t : List Nat) : decStr (encStr s ++ t) = some (s, t) := by
  simp only [encStr, decStr, List.cons_append]
  rw [List.take_left' (by simp), List.drop_left' (by simp)]
  have h : List.map (Char.ofNat ∘ Char.toNat) s.data = s.data := by
    simp [Function.comp_def, Char.ofNat_toNat]
  simp [List.map_map, h]

theorem decStrs_enc (l : List String) (t : List Nat) :
    decStrs l.length ((l.map encStr).flatten ++ t) = some (l, t) := by
  induction l with
  | nil => simp [decStrs]
  | cons s ss ih =>
    simp only [List.length_cons, List.map_cons, List.flatten_cons, List.append_assoc, decStrs,
      decStr_encStr, ih]

theorem decStrList_enc (l : List String) (t : List Nat) :
    decStrList (encStrList l ++ t) = some (l, t) := by
  simp only [encStrList, decStrList, List.cons_append, decStrs_enc]

theorem decClaims_encClaims (c : TokenClaims) : decClaims (encClaims c) = some c := by
  simp only [encClaims, decClaims, List.append_assoc, decStr_encStr, decStrList_enc]

theorem hmac_inj {s m s' m' : List Nat} (h : hmacSHA256 s m = hmacSHA256 s' m') :
    s = s' ∧ m = m' := by
  simp only [hmacSHA256, List.cons.injEq] at h
  exact List.append_inj h.2 h.1

theorem list_set_ne {l : List Nat} {i : Nat} {b : Nat} (h : i < l.length)
    (hb : b ≠ l.get ⟨i, h⟩) : l.set i b ≠ l := by
  intro he
  apply hb
  have hs : (l.set i b)[i]?.getD 0 = l[i]?.getD 0 := by rw [he]
  rw [List.getElem?_set_self] at hs
  · simp only [List.getElem?_eq_getElem h, Option.getD_some, List.get_eq_getElem] at hs ⊢
    exact hs.symm ▸ rfl
  · exact h

/-- C2: for every userID, username, role list and configured TTL, `ValidateToken`
applied to the token produced by `GenerateToken` succeeds before expiry and
yields claims whose user_id, username and roles equal the inputs; it fails
once the TTL has elapsed, fails when any byte of the token's payload or
signature is altered, and fails under a different signing secret (HMAC taken
in its injective symbolic model). -/
theorem C2_token_roundtrip (secret : List Nat) (ttl : Nat) (userID username : String)
    (roles : List String) (now : Nat) (tok : Token)
    (htok : tok = AuthService.GenerateToken ⟨secret, ttl⟩ now userID username roles) :
    (∀ t, now ≤ t → t < now + ttl →
      AuthService.ValidateToken ⟨secret, ttl⟩ t tok =
        some ⟨userID, username, roles, "go-rest-api", now, now, now + ttl⟩) ∧
    (∀ t, now + ttl ≤ t → AuthService.ValidateToken ⟨secret, ttl⟩ t tok = none) ∧
    (∀ t i b, ∀ h : i < tok.payload.length, b ≠ tok.payload.get ⟨i, h⟩ →
      AuthService.ValidateToken ⟨secret, ttl⟩ t
        { tok with payload := tok.payload.set i b } = none) ∧
    (∀ t i b, ∀ h : i < tok.sig.length, b ≠ tok.sig.get ⟨i, h⟩ →
      AuthService.ValidateToken ⟨secret, ttl⟩ t
        { tok with sig := tok.sig.set i b } = none) ∧
    (∀ t secret', secret' ≠ secret →
      AuthService.ValidateToken ⟨secret', ttl⟩ t tok = none) := by
  subst htok
  refine ⟨?_, ?_, ?_, ?_, ?_⟩
  · intro t h1 h2
    simp [AuthService.ValidateToken, AuthService.GenerateToken, decClaims_encClaims, h1, h2]
  · intro t h1
    simp [AuthService.ValidateToken, AuthService.GenerateToken, decClaims_encClaims]
    omega
  · intro t i b h hb
    have hne := list_set_ne h hb
    simp only [AuthService.GenerateToken] at hne ⊢
    simp only [AuthService.ValidateToken]
    rw [if_neg (by simp), if_pos]
    intro heq
    exact hne (hmac_inj heq).2.symm
  · intro t i b h hb
    have hne := list_set_ne h hb
    simp only [AuthService.GenerateToken] at hne ⊢
    simp only [AuthService.ValidateToken]
    rw [if_neg (by simp), if_pos]
    exact fun heq => hne heq
  · intro t secret' hs
    simp only [AuthService.ValidateToken, AuthService.GenerateToken]
    rw [if_neg (by simp), if_pos]
    intro heq
    exact hs (hmac_inj heq).1.symm

/-- Witness for C2 at secret `[7]`, TTL 10, user ("1", "admin", ["user"]). -/
theorem C2_token_roundtrip_witness :
    (AuthService.ValidateToken ⟨[7], 10⟩ 4
      (AuthService.GenerateToken ⟨[7], 10⟩ 0 "1" "admin" ["user"]) =
      some ⟨"1", "admin", ["user"], "go-rest-api", 0, 0, 10⟩) ∧
    (AuthService.ValidateToken ⟨[7], 10⟩ 10
      (AuthService.GenerateToken ⟨[7], 10⟩ 0 "1" "admin" ["user"]) = none) ∧
    (AuthService.ValidateToken ⟨[7], 10⟩ 4
      { AuthService.GenerateToken ⟨[7], 10⟩ 0 "1" "admin" ["user"] with
        payload :=
          (AuthService.GenerateToken ⟨[7], 10⟩ 0 "1" "admin" ["user"]).payload.set 0 99 } =
      none) ∧
    (AuthService.ValidateToken ⟨[7], 10⟩ 4
      { AuthService.GenerateToken ⟨[7], 10⟩ 0 "1" "admin" ["user"] with
        sig :=
          (AuthService.GenerateToken ⟨[7], 10⟩ 0 "1" "admin" ["user"]).sig.set 0 99 } =
      none) ∧
    (AuthService.ValidateToken ⟨[8], 10⟩ 4
      (AuthService.GenerateToken ⟨[7], 10⟩ 0 "1" "admin" ["user"]) = none) := by
  have h := C2_token_roundtrip [7] 10 "1" "admin" ["user"] 0 _ rfl
  exact ⟨h.1 4 (by decide) (by decide), h.2.1 10 (by decide),
         h.2.2.1 4 0 99 (by decide) (by decide),
         h.2.2.2.1 4 0 99 (by decide) (by decide),
         h.2.2.2.2 4 [8] (by decide)⟩

theorem splitSpace_no_space (l : List Char) (h : ' ' ∉ l) : splitSpace l = [l] := by
  induction l with
  | nil => rfl
  | cons c rest ih =>
    have hc : ¬ c = ' ' := fun he => h (he ▸ List.mem_cons_self c rest)
    have hr : ' ' ∉ rest := fun hm => h (List.mem_cons_of_mem c hm)
    simp only [splitSpace, if_neg hc]
    rw [ih hr]

theorem splitSpace_append (x y : List Char) (hx : ' ' ∉ x) :
    splitSpace (x ++ ' ' :: y) = x :: splitSpace y := by
  induction x with
  | nil => simp [splitSpace]
  | cons c rest ih =>
    have hc : ¬ c = ' ' := fun he => hx (he ▸ List.mem_cons_self c rest)
    have hr : ' ' ∉ rest := fun hm => hx (List.mem_cons_of_mem c hm)
    simp only [List.cons_append, splitSpace, if_neg hc, List.append_eq]
    rw [ih hr]

theorem splitSpace_ne_nil (l : List Char) : splitSpace l ≠ [] := by
  cases l with
  | nil => simp [splitSpace]
  | cons c rest =>
    simp only [splitSpace]
    by_cases hc : c = ' '
    · simp [hc]
    · simp only [if_neg hc]
      cases hr : splitSpace rest <;> simp

theorem splitSpace_eq_single {l x : List Char} (h : splitSpace l = [x]) :
    l = x ∧ ' ' ∉ x := by
  induction l generalizing x with
  | nil =>
    simp only [splitSpace] at h
    injection h with h1 h2
    exact ⟨h1, by rw [← h1]; simp⟩
  | cons c rest ih =>
    simp only [splitSpace] at h
    by_cases hc : c = ' '
    · rw [if_pos hc] at h
      injection h with h1 h2
      exact absurd h2 (splitSpace_ne_nil rest)
    · rw [if_neg hc] at h
      cases hr : splitSpace rest with
      | nil => exact absurd hr (splitSpace_ne_nil rest)
      | cons p ps =>
        rw [hr] at h
        injection h with h1 h2
        obtain ⟨hp, hsp⟩ := ih (x := p) (by rw [hr, h2])
        refine ⟨by rw [← h1, hp], ?_⟩
        rw [← h1]
        intro hm
        rcases List.mem_cons.mp hm with he | hm₁
        · exact hc he.symm
        · exact hsp hm₁

theorem splitSpace_eq_pair {l x y : List Char} (h : splitSpace l = [x, y]) :
    l = x ++ ' ' :: y ∧ ' ' ∉ x ∧ ' ' ∉ y := by
  induction l generalizing x with
  | nil =>
    simp only [splitSpace] at h
    injection h with h1 h2
    simp at h2
  | cons c rest ih =>
    simp only [splitSpace] at h
    by_cases hc : c = ' '
    · rw [if_pos hc] at h
      injection h with h1 h2
      obtain ⟨hy, hsy⟩ := splitSpace_eq_single h2
      subst hc
      refine ⟨?_, ?_, hsy⟩
      · rw [← h1, hy]; rfl
      · rw [← h1]; simp
    · rw [if_neg hc] at h
      cases hr : splitSpace rest with
      | nil => exact absurd hr (splitSpace_ne_nil rest)
      | cons p ps =>
        rw [hr] at h
        injection h with h1 h2
        obtain ⟨hrest, hsp, hsy⟩ := ih (x := p) (by rw [hr, h2])
        refine ⟨?_, ?_, hsy⟩
        · rw [← h1, hrest]; rfl
        · rw [← h1]
          intro hm
          rcases List.mem_cons.mp hm with he | hm₁
          · exact hc he.symm
          · exact hsp hm₁

theorem extract2_ok_of_form (h : String) (scheme rest : List Char)
    (hd : h.data = scheme ++ ' ' :: rest) (hs : ' ' ∉ scheme) (hr : ' ' ∉ rest)
    (hb : goToLower (String.mk scheme) = "bearer")
    (ht : goTrimSpace (String.mk rest) ≠ "") :
    ExtractBearerToken₂ h = .ok (goTrimSpace (String.mk rest)) := by
  have hsplit : goSplitSpace h = [String.mk scheme, String.mk rest] := by
    simp [goSplitSpace, hd, splitSpace_append scheme rest hs, splitSpace_no_space rest hr]
  have hne : ¬ h = "" := by
    intro he
    subst he
    simp at hd
  simp only [ExtractBearerToken₂, if_neg hne, hsplit]
  simp [hb, ht]

theorem extract2_form_of_ok (h : String) (t : String)
    (hok : ExtractBearerToken₂ h = .ok t) :
    ∃ scheme rest, h.data = scheme ++ ' ' :: rest ∧ ' ' ∉ scheme ∧ ' ' ∉ rest ∧
      goToLower (String.mk scheme) = "bearer" ∧ goTrimSpace (String.mk rest) ≠ "" ∧
      t = goTrimSpace (String.mk rest) := by
  by_cases hne : h = ""
  · simp [ExtractBearerToken₂, hne] at hok
  · simp only [ExtractBearerToken₂, if_neg hne] at hok
    by_cases hcond : (goSplitSpace h).length ≠ 2 ∨ goToLower ((goSplitSpace h).headD "") ≠ "bearer"
    · rw [if_pos hcond] at hok; simp at hok
    · rw [if_neg hcond] at hok
      push_neg at hcond
      obtain ⟨hlen, hlower⟩ := hcond
      have hlen₂ : (splitSpace h.data).length = 2 := by
        simpa [goSplitSpace] using hlen
      obtain ⟨x, y, hxy⟩ := List.length_eq_two.mp hlen₂
      have hpair := splitSpace_eq_pair hxy
      have hsplit : goSplitSpace h = [String.mk x, String.mk y] := by
        simp [goSplitSpace, hxy]
      rw [hsplit] at hok hlower
      by_cases htok : goTrimSpace (String.mk y) = ""
      · simp [htok] at hok
      · simp only [List.getD_cons_succ, List.getD_cons_zero, if_neg htok] at hok
        refine ⟨x, y, hpair.1, hpair.2.1, hpair.2.2, by simpa using hlower, htok, ?_⟩
        injection hok with hv
        exact hv.symm

theorem extract2_error_unauthorized (h : String) (e : AppError)
    (he : ExtractBearerToken₂ h = .error e) :
    e.code = "UNAUTHORIZED" ∧ e.status = 401 := by
  simp only [ExtractBearerToken₂] at he
  split_ifs at he <;> cases he <;> exact ⟨rfl, rfl⟩

theorem extract1_bearer_any (rest : List Char) (hr : ' ' ∉ rest) :
    ExtractBearerToken₁ (String.mk ("Bearer".data ++ ' ' :: rest)) =
      .ok (String.mk rest) := by
  have hs : ' ' ∉ "Bearer".data := by decide
  have h1 : splitSpace (['B', 'e', 'a', 'r', 'e', 'r'] ++ ' ' :: rest) =
      [['B', 'e', 'a', 'r', 'e', 'r'], rest] := by
    rw [splitSpace_append _ rest (by decide), splitSpace_no_space rest hr]
  have hsplit : goSplitSpace (String.mk ("Bearer".data ++ ' ' :: rest)) =
      ["Bearer", String.mk rest] := by
    simp only [goSplitSpace]
    rw [h1]
    rfl
  have hne : ¬ String.mk ("Bearer".data ++ ' ' :: rest) = "" := by
    intro he
    have : ("Bearer".data ++ ' ' :: rest) = "".data := congrArg String.data he
    simp at this
  simp only [ExtractBearerToken₁, if_neg hne, hsplit]
  simp

/-- C7 (amended): the second `ExtractBearerToken` — the variant wired into
`middleware.Auth` — succeeds exactly on the two-part "Bearer token" form with
the scheme matched case-insensitively and a non-empty trimmed token, returning
Unauthorized (code UNAUTHORIZED, status 401) for an empty, malformed or
empty-token header; the first variant instead requires the literal scheme
`Bearer` and returns whatever follows it, an empty token value included. -/
theorem C7_extract_token (h : String) :
    (∀ scheme rest, h.data = scheme ++ ' ' :: rest → ' ' ∉ scheme → ' ' ∉ rest →
      goToLower (String.mk scheme) = "bearer" → goTrimSpace (String.mk rest) ≠ "" →
      ExtractBearerToken₂ h = .ok (goTrimSpace (String.mk rest))) ∧
    (∀ t, ExtractBearerToken₂ h = .ok t →
      ∃ scheme rest, h.data = scheme ++ ' ' :: rest ∧ ' ' ∉ scheme ∧ ' ' ∉ rest ∧
        goToLower (String.mk scheme) = "bearer" ∧ goTrimSpace (String.mk rest) ≠ "" ∧
        t = goTrimSpace (String.mk rest)) ∧
    (∀ e, ExtractBearerToken₂ h = .error e → e.code = "UNAUTHORIZED" ∧ e.status = 401) ∧
    (∀ rest, ' ' ∉ rest →
      ExtractBearerToken₁ (String.mk ("Bearer".data ++ ' ' :: rest)) = .ok (String.mk rest)) :=
  ⟨fun scheme rest hd hs hr hb ht => extract2_ok_of_form h scheme rest hd hs hr hb ht,
   fun t hok => extract2_form_of_ok h t hok,
   fun e he => extract2_error_unauthorized h e he,
   fun rest hr => extract1_bearer_any rest hr⟩

/-- Witness for C7 at the headers "Bearer tok", "" and "Bearer x". -/
theorem C7_extract_token_witness :
    (ExtractBearerToken₂ "Bearer tok" = .ok "tok") ∧
    ((AppError.unauthorized "Authorization header is required").code = "UNAUTHORIZED" ∧
      (AppError.unauthorized "Authorization header is required").status = 401) ∧
    (ExtractBearerToken₁ "Bearer x" = .ok "x") :=
  ⟨(C7_extract_token "Bearer tok").1 "Bearer".data "tok".data rfl (by decide) (by decide)
      rfl (by decide),
   (C7_extract_token "").2.2.1 (AppError.unauthorized "Authorization header is required") rfl,
   (C7_extract_token "Bearer x").2.2.2 "x".data (by decide)⟩

/-- Counterexample to C7 as stated: the first `ExtractBearerToken` variant
accepts "Bearer " returning an empty token value instead of an Unauthorized
error, and rejects the lowercase scheme "bearer tok". -/
theorem C7_counterexample :
    ExtractBearerToken₁ "Bearer " = .ok "" ∧
    ExtractBearerToken₁ "bearer tok" =
      .error "authorization header must be Bearer token" :=
  ⟨rfl, rfl⟩

/-- C3 (amended): for a non-super-admin caller, `ListResourcesByCreator` lists
exactly the resources whose `created_by` equals the given creator id, so a
resource created by someone else is never listed for B; the store-level
`GetResourceWithOwnership` answers NotFound — its error vocabulary has no
Forbidden — when the stored resource was created neither by the requester nor
by the requester's own creator; but the `GetResource` handler wired to the
HTTP surface performs no ownership check and returns any stored resource to
any authenticated caller, so R's existence is revealed to an unrelated
admin B. -/
theorem C3_ownership_isolation (db : Database) (creatorID : String)
    (requesterID requesterCreatedBy : String) (s : ServerState)
    (resourceID : String) (r : Resource) :
    (∀ x ∈ db.ListResourcesByCreator creatorID false, x.created_by = creatorID) ∧
    (r.created_by ≠ creatorID → r ∉ db.ListResourcesByCreator creatorID false) ∧
    (∀ id x, db.GetResource id = .ok x →
      x.created_by ≠ requesterID → x.created_by ≠ requesterCreatedBy →
      db.GetResourceWithOwnership id requesterID false requesterCreatedBy =
        .error .resourceNotFound) ∧
    (s.db.GetResource resourceID = .ok r → GetResourceHandler s resourceID = .ok r) := by
  refine ⟨?_, ?_, ?_, ?_⟩
  · intro x hx
    have := (List.mem_filter.mp hx).2
    simpa using this
  · intro hne hmem
    exact hne (by simpa using (List.mem_filter.mp hmem).2)
  · intro id x hget h₁ h₂
    simp only [Database.GetResource] at hget
    simp only [Database.GetResourceWithOwnership]
    cases hf : db.resources.find? (fun y => y.id == id) with
    | none => rfl
    | some y =>
      rw [hf] at hget
      injection hget with hxy
      subst hxy
      simp [h₁, h₂]
  · intro hget
    simp [GetResourceHandler, hget]

/-- Counterexample to C3 as stated: with admins A (id "a") and B (id "b") and
resource "r1" created by A, the wired `GetResource` handler — which consults
no caller identity, so in particular when B performs the lookup — returns the
resource, not NotFound. -/
theorem C3_counterexample :
    GetResourceHandler
      { db :=
          { users :=
              [{ id := "a", username := "alice", email := "a@x.com",
                 password := "hA", role := "admin", created_by := "",
                 created_at := 0, updated_at := 0 },
               { id := "b", username := "bob", email := "b@x.com",
                 password := "hB", role := "admin", created_by := "",
                 created_at := 0, updated_at := 0 }],
            resources :=
              [{ id := "r1", name := "R", description := "", data := none,
                 created_by := "a", created_at := 0, updated_at := 0 }],
            setupComplete := true },
        registry := [] } "r1" =
      .ok { id := "r1", name := "R", description := "", data := none,
            created_by := "a", created_at := 0, updated_at := 0 } ∧
    ("a" : String) ≠ "b" :=
  ⟨rfl, by decide⟩

/-- C6 (amended): `Login` recomputes the token's role claims from the stored
role on every login as `loginRoles`: a stored `admin` yields `[user, admin]`
and any other stored role — `user` and also `super_admin` — yields `[user]`
only; no super_admin claim set is ever issued. -/
theorem C6_login_roles (s : ServerState) (a : AuthService) (now : Nat)
    (r : LoginRequest) (user : User)
    (hvalid : validLoginRequest r = true)
    (hget : s.db.GetUser r.username = .ok user)
    (hpw : checkPassword r.password user.password = true) :
    Login s a now (some r) =
      .created (a.GenerateToken now user.id user.username (loginRoles user.role)) ∧
    loginRoles "admin" = ["user", "admin"] ∧
    loginRoles "user" = ["user"] ∧
    loginRoles "super_admin" = ["user"] ∧
    (∀ role, role ≠ "admin" → loginRoles role = ["user"]) := by
  refine ⟨?_, rfl, rfl, rfl, ?_⟩
  · simp [Login, hvalid, hget, hpw]
  · intro role hr
    simp [loginRoles, hr]

/-- Witness for C6: logging in a stored admin issues the claim set
`[user, admin]`. -/
theorem C6_login_roles_witness :
    Login
      { db :=
          { users :=
              [{ id := "7", username := "carol", email := "c@x.com",
                 password := hashPassword "password7", role := "admin",
                 created_by := "", created_at := 0, updated_at := 0 }],
            resources := [], setupComplete := true },
        registry := [] } ⟨[7], 10⟩ 0 (some ⟨"carol", "password7"⟩) =
      .created (AuthService.GenerateToken ⟨[7], 10⟩ 0 "7" "carol" ["user", "admin"]) :=
  (C6_login_roles
    { db :=
        { users :=
            [{ id := "7", username := "carol", email := "c@x.com",
               password := hashPassword "password7", role := "admin",
               created_by := "", created_at := 0, updated_at := 0 }],
          resources := [], setupComplete := true },
      registry := [] }
    ⟨[7], 10⟩ 0 ⟨"carol", "password7"⟩
    { id := "7", username := "carol", email := "c@x.com",
      password := hashPassword "password7", role := "admin",
      created_by := "", created_at := 0, updated_at := 0 }
    (by decide) rfl (by decide)).1

/-- Counterexample to C6 as stated: logging in a stored `super_admin` issues a
token whose role claims are `[user]`, not `[user, admin, super_admin]`. -/
theorem C6_counterexample :
    Login
      { db :=
          { users :=
              [{ id := "9", username := "root", email := "r@x.com",
                 password := hashPassword "password9", role := "super_admin",
                 created_by := "", created_at := 0, updated_at := 0 }],
            resources := [], setupComplete := true },
        registry := [] } ⟨[7], 10⟩ 0 (some ⟨"root", "password9"⟩) =
      .created (AuthService.GenerateToken ⟨[7], 10⟩ 0 "9" "root" ["user"]) ∧
    (["user"] : List String) ≠ ["user", "admin", "super_admin"] :=
  ⟨rfl, by decide⟩

theorem authMiddleware_error_unauthorized (a : AuthService) (now : Nat)
    (jwtDecode : String → Option Token) (authHeader : String) (e : AppError)
    (he : AuthMiddleware a now jwtDecode authHeader = .error e) :
    e.code = "UNAUTHORIZED" ∧ e.status = 401 := by
  simp only [AuthMiddleware] at he
  cases hx : ExtractBearerToken₂ authHeader with
  | error e₁ =>
    rw [hx] at he
    injection he with he₁
    exact he₁ ▸ extract2_error_unauthorized authHeader e₁ hx
  | ok tokenString =>
    rw [hx] at he
    dsimp only at he
    cases hd : jwtDecode tokenString with
    | none => rw [hd] at he; injection he with he₁; rw [← he₁]; exact ⟨rfl, rfl⟩
    | some t =>
      rw [hd] at he
      dsimp only at he
      cases hv : a.ValidateToken now t with
      | none => rw [hv] at he; injection he with he₁; rw [← he₁]; exact ⟨rfl, rfl⟩
      | some c => rw [hv] at he; cases he

/-- C4: dispatch of a request to a registered dynamic endpoint runs
`middleware.Auth` first: whenever the middleware fails, the dispatch result is
that same Unauthorized error (status 401) and is independent of the canned
response, which is therefore never evaluated; whenever it succeeds, the reply
carries the canned response together with `user`/`user_id` taken from the
request's validated claims. -/
theorem C4_dynamic_route_auth (a : AuthService) (now : Nat)
    (jwtDecode : String → Option Token) (authHeader : String)
    (endpoint method : String) (response : Json) :
    (∀ e, AuthMiddleware a now jwtDecode authHeader = .error e →
      dynamicDispatch a now jwtDecode authHeader endpoint method response = .err e ∧
      e.code = "UNAUTHORIZED" ∧ e.status = 401 ∧
      (∀ response₁, dynamicDispatch a now jwtDecode authHeader endpoint method response₁ =
        dynamicDispatch a now jwtDecode authHeader endpoint method response)) ∧
    (∀ claims, AuthMiddleware a now jwtDecode authHeader = .ok claims →
      dynamicDispatch a now jwtDecode authHeader endpoint method response =
        .ok { status := 200, response := response, user := claims.username,
              user_id := claims.user_id, endpoint := "/v1" ++ endpoint,
              method := method }) := by
  constructor
  · intro e he
    obtain ⟨hc, hs⟩ := authMiddleware_error_unauthorized a now jwtDecode authHeader e he
    refine ⟨by simp [dynamicDispatch, he], hc, hs, ?_⟩
    intro response₁
    simp [dynamicDispatch, he]
  · intro claims hok
    simp [dynamicDispatch, hok]

/-- Witness for C4: a rejected decode yields the Unauthorized error, and a
valid token yields the canned response with the caller's claims echoed. -/
theorem C4_dynamic_route_auth_witness :
    (dynamicDispatch ⟨[7], 10⟩ 5 (fun _ => none) "Bearer x" "/x" "GET" Json.null =
      .err (AppError.unauthorized "Invalid or expired token")) ∧
    (dynamicDispatch ⟨[7], 10⟩ 5
      (fun _ => some (AuthService.GenerateToken ⟨[7], 10⟩ 0 "1" "admin" ["user"]))
      "Bearer x" "/x" "GET" Json.null =
      .ok { status := 200, response := Json.null, user := "admin", user_id := "1",
            endpoint := "/v1/x", method := "GET" }) :=
  ⟨((C4_dynamic_route_auth ⟨[7], 10⟩ 5 (fun _ => none) "Bearer x" "/x" "GET"
      Json.null).1 (AppError.unauthorized "Invalid or expired token") rfl).1,
   (C4_dynamic_route_auth ⟨[7], 10⟩ 5
      (fun _ => some (AuthService.GenerateToken ⟨[7], 10⟩ 0 "1" "admin" ["user"]))
      "Bearer x" "/x" "GET" Json.null).2
     ⟨"1", "admin", ["user"], "go-rest-api", 0, 0, 10⟩ rfl⟩

theorem CreateUser_setupComplete (db : Database) (now : Nat) (u : User) :
    (db.CreateUser now u).2.setupComplete = db.setupComplete := by
  unfold Database.CreateUser; split <;> rfl

theorem CreateUser_ok_users {db : Database} {now : Nat} {u : User} {a : Unit}
    {db₁ : Database} (h : db.CreateUser now u = (.ok a, db₁)) :
    db₁.users = db.users ++ [{ u with created_at := now, updated_at := now }] := by
  unfold Database.CreateUser at h
  split at h
  · simp at h
  · injection h with h1 h2
    rw [← h2]

theorem CreateUser_resources (db : Database) (now : Nat) (u : User) :
    (db.CreateUser now u).2.resources = db.resources := by
  unfold Database.CreateUser; split <;> rfl

theorem UpdateUser_setupComplete (db : Database) (now : Nat) (username : String)
    (updates : User) :
    (db.UpdateUser now username updates).2.setupComplete = db.setupComplete := by
  unfold Database.UpdateUser; split <;> rfl

theorem UpdateUser_resources (db : Database) (now : Nat) (username : String)
    (updates : User) :
    (db.UpdateUser now username updates).2.resources = db.resources := by
  unfold Database.UpdateUser; split <;> rfl

theorem UpdateUser_users (db : Database) (now : Nat) (username : String)
    (updates : User) :
    (db.UpdateUser now username updates).2.users = db.users ∨
    (db.UpdateUser now username updates).2.users =
      db.users.map (fun u => if u.username == username then mergeUser u updates now else u) := by
  unfold Database.UpdateUser; split
  · right; rfl
  · left; rfl

theorem DeleteUser_setupComplete (db : Database) (username : String) :
    (db.DeleteUser username).2.setupComplete = db.setupComplete := by
  unfold Database.DeleteUser; split <;> rfl

theorem DeleteUser_resources (db : Database) (username : String) :
    (db.DeleteUser username).2.resources = db.resources := by
  unfold Database.DeleteUser; split <;> rfl

theorem DeleteUser_users (db : Database) (username : String) :
    (db.DeleteUser username).2.users = db.users ∨
    (db.DeleteUser username).2.users =
      db.users.filter (fun u => ¬ u.username == username) := by
  unfold Database.DeleteUser; split
  · right; rfl
  · left; rfl

theorem CreateResource_setupComplete (db : Database) (now : Nat) (r : Resource) :
    (db.CreateResource now r).2.setupComplete = db.setupComplete := rfl

theorem CreateResource_users (db : Database) (now : Nat) (r : Resource) :
    (db.CreateResource now r).2.users = db.users := rfl

theorem UpdateResource_setupComplete (db : Database) (now : Nat) (id : String)
    (updates : Resource) :
    (db.UpdateResource now id updates).2.setupComplete = db.setupComplete := by
  unfold Database.UpdateResource; split <;> rfl

theorem UpdateResource_users (db : Database) (now : Nat) (id : String)
    (updates : Resource) :
    (db.UpdateResource now id updates).2.users = db.users := by
  unfold Database.UpdateResource; split <;> rfl

theorem DeleteResource_setupComplete (db : Database) (id : String) :
    (db.DeleteResource id).2.setupComplete = db.setupComplete := by
  unfold Database.DeleteResource; split <;> rfl

theorem DeleteResource_users (db : Database) (id : String) :
    (db.DeleteResource id).2.users = db.users := by
  unfold Database.DeleteResource; split <;> rfl

theorem setup_setupComplete_mono (s : ServerState) (now : Nat)
    (req : Option RegisterRequest) (h : s.db.setupComplete = true) :
    (Setup s now req).2.db.setupComplete = true := by
  unfold Setup
  rw [show s.db.IsSetupComplete = true from h]
  simpa using h

theorem validRoles_Setup (s : ServerState) (now : Nat) (req : Option RegisterRequest)
    (h : ValidRoles s.db) : ValidRoles (Setup s now req).2.db := by
  unfold Setup
  split
  · exact h
  · cases req with
    | none => exact h
    | some r =>
      dsimp only
      split
      · exact h
      · split
        · exact h
        · next a db₁ heq =>
          have husers := CreateUser_ok_users heq
          intro u hu
          simp only [Database.CompleteSetup] at hu
          rw [husers] at hu
          rcases List.mem_append.mp hu with h1 | h1
          · exact h u h1
          · simp only [List.mem_singleton] at h1
            rw [h1]
            left; rfl

theorem createUserHandler_setupComplete (s : ServerState) (now : Nat) (newID : String)
    (req : Option CreateUserRequest) :
    (CreateUserHandler s now newID req).2.db.setupComplete = s.db.setupComplete := by
  unfold CreateUserHandler
  cases req with
  | none => rfl
  | some r =>
    dsimp only
    split
    · rfl
    · split
      · rfl
      · rfl
      · next a db₁ heq =>
        have h2 := CreateUser_setupComplete s.db now
          { id := newID, username := r.username, email := r.email,
            password := hashPassword r.password, role := r.role,
            created_by := "", created_at := 0, updated_at := 0 }
        rw [heq] at h2
        exact h2

theorem validRoles_CreateUserHandler (s : ServerState) (now : Nat) (newID : String)
    (req : Option CreateUserRequest) (h : ValidRoles s.db) :
    ValidRoles (CreateUserHandler s now newID req).2.db := by
  unfold CreateUserHandler
  cases req with
  | none => exact h
  | some r =>
    dsimp only
    split
    · exact h
    · next hvalid =>
      split
      · exact h
      · exact h
      · next a db₁ heq =>
        have hv : validCreateUserRequest r = true := by
          by_contra hc
          exact hvalid (by simpa using hc)
        have hrole : r.role = "admin" ∨ r.role = "user" := by
          unfold validCreateUserRequest at hv
          simp only [Bool.and_eq_true, Bool.or_eq_true, beq_iff_eq, decide_eq_true_eq] at hv
          exact hv.2
        have husers := CreateUser_ok_users heq
        intro u hu
        rw [husers] at hu
        rcases List.mem_append.mp hu with h1 | h1
        · exact h u h1
        · simp only [List.mem_singleton] at h1
          rw [h1]
          exact hrole

theorem updateUserByAdmin_setupComplete (s : ServerState) (now : Nat) (userID : String)
    (req : Option AdminUpdateUserRequest) :
    (UpdateUserByAdminHandler s now userID req).2.db.setupComplete = s.db.setupComplete := by
  unfold UpdateUserByAdminHandler
  cases req with
  | none => rfl
  | some r =>
    dsimp only
    split
    · rfl
    · split
      · rfl
      · next user heq₀ =>
        split
        · rfl
        · next a db₁ heq =>
          have h2 := UpdateUser_setupComplete s.db now user.username
            { id := "", username := "", email := r.email,
              password := if r.password ≠ "" then hashPassword r.password else "",
              role := r.role, created_by := "", created_at := 0, updated_at := 0 }
          rw [heq] at h2
          exact h2

theorem validRoles_mergedUsers (db : Database) (now : Nat) (username : String)
    (updates : User) (h : ValidRoles db)
    (hrole : updates.role = "" ∨ updates.role = "admin" ∨ updates.role = "user") :
    ∀ u ∈ db.users.map (fun v => if v.username == username then mergeUser v updates now else v),
      u.role = "admin" ∨ u.role = "user" := by
  intro u hu
  obtain ⟨v, hv, hvu⟩ := List.mem_map.mp hu
  by_cases he : v.username == username
  · rw [if_pos he] at hvu
    rw [← hvu]
    unfold mergeUser
    dsimp only
    rcases hrole with h0 | h0 | h0
    · rw [h0]; simpa using h v hv
    · rw [h0]; simp
    · rw [h0]; simp
  · rw [if_neg he] at hvu
    rw [← hvu]
    exact h v hv

theorem validRoles_UpdateUserByAdmin (s : ServerState) (now : Nat) (userID : String)
    (req : Option AdminUpdateUserRequest) (h : ValidRoles s.db) :
    ValidRoles (UpdateUserByAdminHandler s now userID req).2.db := by
  unfold UpdateUserByAdminHandler
  cases req with
  | none => exact h
  | some r =>
    dsimp only
    split
    · exact h
    · next hvalid =>
      split
      · exact h
      · next user heq₀ =>
        split
        · exact h
        · next a db₁ heq =>
          have hv : validAdminUpdateUserRequest r = true := by
            by_contra hc
            exact hvalid (by simpa using hc)
          have hrole : r.role = "" ∨ r.role = "admin" ∨ r.role = "user" := by
            unfold validAdminUpdateUserRequest at hv
            simp only [Bool.and_eq_true, Bool.or_eq_true, beq_iff_eq] at hv
            tauto
          have husers := UpdateUser_users s.db now user.username
            { id := "", username := "", email := r.email,
              password := if r.password ≠ "" then hashPassword r.password else "",
              role := r.role, created_by := "", created_at := 0, updated_at := 0 }
          rw [heq] at husers
          intro u hu
          rcases husers with h1 | h1
          · rw [h1] at hu; exact h u hu
          · rw [h1] at hu
            exact validRoles_mergedUsers s.db now user.username _ h hrole u hu

theorem updateMe_setupComplete (s : ServerState) (now : Nat) (claims : TokenClaims)
    (req : Option UpdateMeRequest) :
    (UpdateMeHandler s now claims req).2.db.setupComplete = s.db.setupComplete := by
  unfold UpdateMeHandler
  cases req with
  | none => rfl
  | some r =>
    dsimp only
    split
    · rfl
    · split
      · rfl
      · next user heq₀ =>
        split
        · rfl
        · next a db₁ heq =>
          have h2 := UpdateUser_setupComplete s.db now user.username
            { id := "", username := "", email := r.email,
              password := if r.password ≠ "" then hashPassword r.password else "",
              role := "", created_by := "", created_at := 0, updated_at := 0 }
          rw [heq] at h2
          exact h2

theorem validRoles_UpdateMe (s : ServerState) (now : Nat) (claims : TokenClaims)
    (req : Option UpdateMeRequest) (h : ValidRoles s.db) :
    ValidRoles (UpdateMeHandler s now claims req).2.db := by
  unfold UpdateMeHandler
  cases req with
  | none => exact h
  | some r =>
    dsimp only
    split
    · exact h
    · split
      · exact h
      · next user heq₀ =>
        split
        · exact h
        · next a db₁ heq =>
          have husers := UpdateUser_users s.db now user.username
            { id := "", username := "", email := r.email,
              password := if r.password ≠ "" then hashPassword r.password else "",
              role := "", created_by := "", created_at := 0, updated_at := 0 }
          rw [heq] at husers
          intro u hu
          rcases husers with h1 | h1
          · rw [h1] at hu; exact h u hu
          · rw [h1] at hu
            exact validRoles_mergedUsers s.db now user.username _ h (Or.inl rfl) u hu

theorem deleteUser_setupComplete (s : ServerState) (userID : String) :
    (DeleteUserHandler s userID).2.db.setupComplete = s.db.setupComplete := by
  unfold DeleteUserHandler
  split
  · rfl
  · next user heq₀ =>
    split
    · rfl
    · next a db₁ heq =>
      have h2 := DeleteUser_setupComplete s.db user.username
      rw [heq] at h2
      exact h2

theorem validRoles_DeleteUser (s : ServerState) (userID : String) (h : ValidRoles s.db) :
    ValidRoles (DeleteUserHandler s userID).2.db := by
  unfold DeleteUserHandler
  split
  · exact h
  · next user heq₀ =>
    split
    · exact h
    · next a db₁ heq =>
      have husers := DeleteUser_users s.db user.username
      rw [heq] at husers
      intro u hu
      rcases husers with h1 | h1
      · rw [h1] at hu; exact h u hu
      · rw [h1] at hu
        exact h u (List.mem_of_mem_filter hu)

theorem createResourceDyn_db_fields (s : ServerState) (now : Nat)
    (claims : TokenClaims) (newID : String) (req : Option ResourceRequest) :
    (CreateResourceWithDynamicEndpoint s now claims newID req).2.db.setupComplete =
      s.db.setupComplete ∧
    (CreateResourceWithDynamicEndpoint s now claims newID req).2.db.users = s.db.users := by
  unfold CreateResourceWithDynamicEndpoint
  cases req with
  | none => exact ⟨rfl, rfl⟩
  | some r =>
    dsimp only
    split
    · exact ⟨rfl, rfl⟩
    · split
      · exact ⟨rfl, rfl⟩
      · next a db₁ heq =>
        have h2 := CreateResource_setupComplete s.db now
          { id := newID, name := r.name, description := r.description
            data := r.data, created_by := claims.user_id
            created_at := 0, updated_at := 0 }
        have h3 := CreateResource_users s.db now
          { id := newID, name := r.name, description := r.description
            data := r.data, created_by := claims.user_id
            created_at := 0, updated_at := 0 }
        rw [heq] at h2 h3
        split <;> exact ⟨h2, h3⟩

theorem updateResourceDyn_db_fields (s : ServerState) (now : Nat)
    (claims : TokenClaims) (resourceID : String) (req : Option ResourceRequest) :
    (UpdateResourceWithDynamicEndpoint s now claims resourceID req).2.db.setupComplete =
      s.db.setupComplete ∧
    (UpdateResourceWithDynamicEndpoint s now claims resourceID req).2.db.users = s.db.users := by
  unfold UpdateResourceWithDynamicEndpoint
  cases req with
  | none => exact ⟨rfl, rfl⟩
  | some r =>
    dsimp only
    split
    · exact ⟨rfl, rfl⟩
    · next resource heq₀ =>
      split
      · exact ⟨rfl, rfl⟩
      · split
        · exact ⟨rfl, rfl⟩
        · next a db₁ heq =>
          have h2 := UpdateResource_setupComplete s.db now resourceID
            { id := "", name := r.name, description := r.description
              data := r.data, created_by := "", created_at := 0, updated_at := 0 }
          have h3 := UpdateResource_users s.db now resourceID
            { id := "", name := r.name, description := r.description
              data := r.data, created_by := "", created_at := 0, updated_at := 0 }
          rw [heq] at h2 h3
          split
          · exact ⟨h2, h3⟩
          · split <;> exact ⟨h2, h3⟩

theorem deleteResourceDyn_db_fields (s : ServerState) (claims : TokenClaims)
    (resourceID : String) :
    (DeleteResourceWithDynamicEndpoint s claims resourceID).2.db.setupComplete =
      s.db.setupComplete ∧
    (DeleteResourceWithDynamicEndpoint s claims resourceID).2.db.users = s.db.users := by
  unfold DeleteResourceWithDynamicEndpoint
  split
  · exact ⟨rfl, rfl⟩
  · next resource heq₀ =>
    split
    · exact ⟨rfl, rfl⟩
    · split
      · exact ⟨rfl, rfl⟩
      · next a db₁ heq =>
        have h2 := DeleteResource_setupComplete s.db resourceID
        have h3 := DeleteResource_users s.db resourceID
        rw [heq] at h2 h3
        exact ⟨h2, h3⟩

theorem applyOp_setupComplete_mono (s : ServerState) (op : Op)
    (h : s.db.setupComplete = true) : (applyOp s op).db.setupComplete = true := by
  cases op with
  | setup now req => exact setup_setupComplete_mono s now req h
  | login now req => exact h
  | getMe claims => exact h
  | createUser now newID req => rw [applyOp, createUserHandler_setupComplete]; exact h
  | listUsers => exact h
  | updateUserByAdmin now userID req =>
    rw [applyOp, updateUserByAdmin_setupComplete]; exact h
  | deleteUser userID => rw [applyOp, deleteUser_setupComplete]; exact h
  | updateMe now claims req => rw [applyOp, updateMe_setupComplete]; exact h
  | createResource now claims newID req =>
    rw [applyOp, (createResourceDyn_db_fields s now claims newID req).1]; exact h
  | listResources => exact h
  | getResource resourceID => exact h
  | updateResource now claims resourceID req =>
    rw [applyOp, (updateResourceDyn_db_fields s now claims resourceID req).1]; exact h
  | deleteResource claims resourceID =>
    rw [applyOp, (deleteResourceDyn_db_fields s claims resourceID).1]; exact h
  | getStatus => exact h
  | getHealth => exact h

theorem applyOp_validRoles (s : ServerState) (op : Op) (h : ValidRoles s.db) :
    ValidRoles (applyOp s op).db := by
  cases op with
  | setup now req => exact validRoles_Setup s now req h
  | login now req => exact h
  | getMe claims => exact h
  | createUser now newID req => exact validRoles_CreateUserHandler s now newID req h
  | listUsers => exact h
  | updateUserByAdmin now userID req => exact validRoles_UpdateUserByAdmin s now userID req h
  | deleteUser userID => exact validRoles_DeleteUser s userID h
  | updateMe now claims req => exact validRoles_UpdateMe s now claims req h
  | createResource now claims newID req =>
    intro u hu
    rw [applyOp, (createResourceDyn_db_fields s now claims newID req).2] at hu
    exact h u hu
  | listResources => exact h
  | getResource resourceID => exact h
  | updateResource now claims resourceID req =>
    intro u hu
    rw [applyOp, (updateResourceDyn_db_fields s now claims resourceID req).2] at hu
    exact h u hu
  | deleteResource claims resourceID =>
    intro u hu
    rw [applyOp, (deleteResourceDyn_db_fields s claims resourceID).2] at hu
    exact h u hu
  | getStatus => exact h
  | getHealth => exact h

theorem reachable_validRoles {s : ServerState} (h : Reachable s) : ValidRoles s.db := by
  induction h with
  | init => intro u hu; cases hu
  | step hs op ih => exact applyOp_validRoles _ op ih

theorem CreateUser_eq_ok (db : Database) (now : Nat) (u : User)
    (h : (db.users.any fun v => v.username == u.username) = false) :
    db.CreateUser now u =
      (.ok (), { db with users := db.users ++ [{ u with created_at := now, updated_at := now }] }) := by
  unfold Database.CreateUser
  simp [h]

/-- C1: once the setup gate is up, every `Setup` call — regardless of payload —
returns the deterministic "Setup already completed" failure (status 400, the
spec's Conflict taxonomy entry) and leaves the state, in particular the user
collection, untouched; no operation of the HTTP surface ever lowers the gate;
and a first valid `Setup` succeeds with status Accepted and raises the gate. -/
theorem C1_setup_one_time (s : ServerState) (now : Nat) (req : Option RegisterRequest) :
    (s.db.setupComplete = true →
      Setup s now req = (.errorOut 400 "Setup already completed", s)) ∧
    (∀ op, s.db.setupComplete = true → (applyOp s op).db.setupComplete = true) ∧
    (∀ r, s.db.setupComplete = false → validRegisterRequest r = true →
      (s.db.users.any fun v => v.username == r.username) = false →
      (Setup s now (some r)).1 = .accepted ∧
      (Setup s now (some r)).2.db.setupComplete = true) := by
  refine ⟨?_, fun op h => applyOp_setupComplete_mono s op h, ?_⟩
  · intro h
    unfold Setup
    rw [show s.db.IsSetupComplete = true from h]
    simp
  · intro r h hv hex
    unfold Setup
    rw [show s.db.IsSetupComplete = false from h]
    dsimp only
    rw [if_neg (not_not_intro hv)]
    rw [CreateUser_eq_ok s.db now
      { id := "1", username := r.username, email := r.email,
        password := hashPassword r.password, role := "admin",
        created_by := "", created_at := 0, updated_at := 0 } hex]
    exact ⟨rfl, rfl⟩

/-- Witness for C1: a completed state rejects a further setup unchanged, the
gate survives a user deletion, and the first setup from the initial state is
accepted and raises the gate. -/
theorem C1_setup_one_time_witness :
    (Setup
      { db := { users := [{ id := "1", username := "admin1", email := "a@b.com",
                            password := hashPassword "password", role := "admin",
                            created_by := "", created_at := 0, updated_at := 0 }],
                resources := [], setupComplete := true },
        registry := [] } 5 (some ⟨"eve", "e@x.com", "password"⟩) =
      (.errorOut 400 "Setup already completed",
        { db := { users := [{ id := "1", username := "admin1", email := "a@b.com",
                              password := hashPassword "password", role := "admin",
                              created_by := "", created_at := 0, updated_at := 0 }],
                  resources := [], setupComplete := true },
          registry := [] })) ∧
    (applyOp
      { db := { users := [{ id := "1", username := "admin1", email := "a@b.com",
                            password := hashPassword "password", role := "admin",
                            created_by := "", created_at := 0, updated_at := 0 }],
                resources := [], setupComplete := true },
        registry := [] } (Op.deleteUser "1")).db.setupComplete = true ∧
    ((Setup initState 0 (some ⟨"admin1", "a@b.com", "password"⟩)).1 = .accepted ∧
      (Setup initState 0 (some ⟨"admin1", "a@b.com", "password"⟩)).2.db.setupComplete = true) :=
  ⟨(C1_setup_one_time
      { db := { users := [{ id := "1", username := "admin1", email := "a@b.com",
                            password := hashPassword "password", role := "admin",
                            created_by := "", created_at := 0, updated_at := 0 }],
                resources := [], setupComplete := true },
        registry := [] } 5 (some ⟨"eve", "e@x.com", "password"⟩)).1 rfl,
   (C1_setup_one_time
      { db := { users := [{ id := "1", username := "admin1", email := "a@b.com",
                            password := hashPassword "password", role := "admin",
                            created_by := "", created_at := 0, updated_at := 0 }],
                resources := [], setupComplete := true },
        registry := [] } 0 none).2.1 (Op.deleteUser "1") rfl,
   (C1_setup_one_time initState 0 none).2.2 ⟨"admin1", "a@b.com", "password"⟩ rfl
     (by decide) rfl⟩

/-- C9: in every state reachable through the HTTP handlers no stored user has
role `super_admin` — every stored role is `admin` or `user` — because the
setup handler stores role `admin` and the create/update request validators
only pass the roles `admin` and `user` (or an empty role for "unchanged"). -/
theorem C9_no_super_admin (s : ServerState) (h : Reachable s) :
    (∀ u ∈ s.db.users, u.role ≠ "super_admin") ∧
    (∀ u ∈ s.db.users, u.role = "admin" ∨ u.role = "user") ∧
    (∀ r : CreateUserRequest, validCreateUserRequest r = true →
      r.role = "admin" ∨ r.role = "user") ∧
    (∀ r : AdminUpdateUserRequest, validAdminUpdateUserRequest r = true →
      r.role = "" ∨ r.role = "admin" ∨ r.role = "user") := by
  have key := reachable_validRoles h
  refine ⟨?_, key, ?_, ?_⟩
  · intro u hu
    rcases key u hu with h1 | h1 <;> simp [h1]
  · intro r hv
    unfold validCreateUserRequest at hv
    simp only [Bool.and_eq_true, Bool.or_eq_true, beq_iff_eq, decide_eq_true_eq] at hv
    exact hv.2
  · intro r hv
    unfold validAdminUpdateUserRequest at hv
    simp only [Bool.and_eq_true, Bool.or_eq_true, beq_iff_eq] at hv
    tauto

/-- Witness for C9 at the state reached by a first successful setup. -/
theorem C9_no_super_admin_witness :
    ({ id := "1", username := "admin1", email := "a@b.com",
       password := hashPassword "password", role := "admin", created_by := "",
       created_at := 0, updated_at := 0 } : User).role ≠ "super_admin" :=
  (C9_no_super_admin (applyOp initState (Op.setup 0 (some ⟨"admin1", "a@b.com", "password"⟩)))
    (Reachable.step Reachable.init _)).1 _ (by decide)

/-- C5 (amended): the store's `ValidateEndpointConflict` — an endpoint-only
boolean check — flags every endpoint equal to one of its hard-coded existing
routes (or to `/v1` + such a route) as a conflict; but the
`CreateResourceWithDynamicEndpoint` handler wired to `POST /v1/resources`
never invokes it: every valid request carrying endpoint data — colliding or
not — is accepted and its route registered. -/
theorem C5_endpoint_conflict (db : Database) (e : String) (s : ServerState)
    (now : Nat) (claims : TokenClaims) (newID : String) (r : ResourceRequest)
    (ep mth : String) (resp : Json) :
    (e ∈ db.GetExistingRoutes → db.ValidateEndpointConflict e = true) ∧
    (∀ route ∈ db.GetExistingRoutes,
      db.ValidateEndpointConflict ("/v1" ++ route) = true) ∧
    (validResourceRequest r = true →
      dataEndpoint r.data = some (ep, mth, resp) →
      (CreateResourceWithDynamicEndpoint s now claims newID (some r)).1 =
        .ok { id := newID, name := r.name, description := r.description,
              data := r.data, created_by := claims.user_id,
              created_at := 0, updated_at := 0 } ∧
      (CreateResourceWithDynamicEndpoint s now claims newID (some r)).2.registry =
        s.registry ++ [(ep, mth, resp)]) := by
  refine ⟨?_, ?_, ?_⟩
  · intro hmem
    have h₁ : (db.GetExistingRoutes.any fun route =>
        e == route || e == "/v1" ++ route) = true :=
      List.any_eq_true.mpr ⟨e, hmem, by simp⟩
    unfold Database.ValidateEndpointConflict
    dsimp only
    rw [if_pos h₁]
  · intro route hroute
    have h₁ : (db.GetExistingRoutes.any fun r₀ =>
        ("/v1" ++ route : String) == r₀ || ("/v1" ++ route : String) == "/v1" ++ r₀) = true :=
      List.any_eq_true.mpr ⟨route, hroute, by simp⟩
    unfold Database.ValidateEndpointConflict
    dsimp only
    rw [if_pos h₁]
  · intro hv hdata
    unfold CreateResourceWithDynamicEndpoint
    dsimp only
    rw [if_neg (not_not_intro hv)]
    unfold Database.CreateResource
    dsimp only
    rw [hdata]
    exact ⟨rfl, rfl⟩

/-- Witness for C5: the store check flags "/status" as a conflict, yet the
wired handler registers exactly that colliding route. -/
theorem C5_endpoint_conflict_witness :
    (NewDatabase.ValidateEndpointConflict "/status" = true) ∧
    ((CreateResourceWithDynamicEndpoint initState 1
        ⟨"1", "admin1", ["user", "admin"], "go-rest-api", 0, 0, 10⟩ "rid1"
        (some ⟨"X", "",
          some [("endpoint", Json.str "/status"), ("method", Json.str "GET"),
                ("response", Json.null)]⟩)).2.registry =
      [("/status", "GET", Json.null)]) :=
  ⟨(C5_endpoint_conflict NewDatabase "/status" initState 1
      ⟨"1", "admin1", ["user", "admin"], "go-rest-api", 0, 0, 10⟩ "rid1"
      ⟨"X", "", some [("endpoint", Json.str "/status"), ("method", Json.str "GET"),
                      ("response", Json.null)]⟩ "/status" "GET" Json.null).1
      (by decide),
   ((C5_endpoint_conflict NewDatabase "/status" initState 1
      ⟨"1", "admin1", ["user", "admin"], "go-rest-api", 0, 0, 10⟩ "rid1"
      ⟨"X", "", some [("endpoint", Json.str "/status"), ("method", Json.str "GET"),
                      ("response", Json.null)]⟩ "/status" "GET" Json.null).2.2
      rfl rfl).2⟩

/-- Counterexample to C5 as stated: a reachable state (setup, then resource
creation carrying endpoint "/status"/"GET") holds a registered dynamic route
that collides with the reserved static route ("/status", "GET") — an endpoint
the store's own `ValidateEndpointConflict` flags as a conflict — and the
creating request was accepted, not rejected with Conflict. -/
theorem C5_counterexample :
    Reachable
      (applyOp (applyOp initState (Op.setup 0 (some ⟨"admin1", "a@b.com", "password"⟩)))
        (Op.createResource 1 ⟨"1", "admin1", ["user", "admin"], "go-rest-api", 0, 0, 10⟩
          "rid1"
          (some ⟨"X", "",
            some [("endpoint", Json.str "/status"), ("method", Json.str "GET"),
                  ("response", Json.null)]⟩))) ∧
    (applyOp (applyOp initState (Op.setup 0 (some ⟨"admin1", "a@b.com", "password"⟩)))
        (Op.createResource 1 ⟨"1", "admin1", ["user", "admin"], "go-rest-api", 0, 0, 10⟩
          "rid1"
          (some ⟨"X", "",
            some [("endpoint", Json.str "/status"), ("method", Json.str "GET"),
                  ("response", Json.null)]⟩))).registry =
      [("/status", "GET", Json.null)] ∧
    reservedRoutes.contains ("/status", "GET") = true ∧
    NewDatabase.ValidateEndpointConflict "/status" = true ∧
    (CreateResourceWithDynamicEndpoint
        (applyOp initState (Op.setup 0 (some ⟨"admin1", "a@b.com", "password"⟩))) 1
        ⟨"1", "admin1", ["user", "admin"], "go-rest-api", 0, 0, 10⟩ "rid1"
        (some ⟨"X", "",
          some [("endpoint", Json.str "/status"), ("method", Json.str "GET"),
                ("response", Json.null)]⟩)).1 =
      .ok { id := "rid1", name := "X", description := "",
            data := some [("endpoint", Json.str "/status"), ("method", Json.str "GET"),
                          ("response", Json.null)],
            created_by := "1", created_at := 0, updated_at := 0 } :=
  ⟨Reachable.step (Reachable.step Reachable.init _) _, rfl, rfl, rfl, rfl⟩

/-- Helper: a failed search over a list prefix passes through an append. -/
theorem find?_append_none {α : Type} {p : α → Bool} {l₁ : List α} (l₂ : List α)
    (h : l₁.find? p = none) : (l₁ ++ l₂).find? p = l₂.find? p := by
  induction l₁ with
  | nil => rfl
  | cons a l ih =>
    cases hp : p a with
    | true =>
      rw [List.find?_cons_of_pos _ hp] at h
      cases h
    | false =>
      rw [List.find?_cons_of_neg _ (by simp [hp])] at h
      rw [List.cons_append, List.find?_cons_of_neg _ (by simp [hp])]
      exact ih h

/-- Helper: after replacing every id-matching entry by `stamped`, a search for
that id finds `stamped` (provided some entry matched). -/
theorem find?_map_replace (l : List Resource) (rid : String) (stamped : Resource)
    (hs : (stamped.id == rid) = true)
    (h : l.any (fun x => x.id == rid) = true) :
    (l.map (fun x => if x.id == rid then stamped else x)).find?
      (fun x => x.id == rid) = some stamped := by
  induction l with
  | nil => simp at h
  | cons a l ih =>
    by_cases ha : (a.id == rid) = true
    · simp only [List.map_cons, if_pos ha]
      exact List.find?_cons_of_pos _ hs
    · simp only [List.map_cons, if_neg ha]
      rw [List.find?_cons_of_neg _ (by simp [ha])]
      apply ih
      simp only [List.any_cons, Bool.or_eq_true] at h
      rcases h with h | h
      · exact absurd h ha
      · exact h

/-- Counterexample to C8 as stated: `CreateResource` on an already-stored id
returns nil error and overwrites the stored record (its name changes from "R"
to "S") instead of returning a Conflict error and leaving it unchanged. -/
theorem C8_counterexample :
    (Database.CreateResource
      { users := [], setupComplete := true,
        resources := [{ id := "r1", name := "R", description := "", data := none,
                        created_by := "1", created_at := 0, updated_at := 0 }] } 5
      { id := "r1", name := "S", description := "", data := none,
        created_by := "2", created_at := 0, updated_at := 0 }).1 = .ok () ∧
    (Database.CreateResource
      { users := [], setupComplete := true,
        resources := [{ id := "r1", name := "R", description := "", data := none,
                        created_by := "1", created_at := 0, updated_at := 0 }] } 5
      { id := "r1", name := "S", description := "", data := none,
        created_by := "2", created_at := 0, updated_at := 0 }).2.resources =
      [{ id := "r1", name := "S", description := "", data := none,
         created_by := "2", created_at := 5, updated_at := 5 }] ∧
    ("S" : String) ≠ "R" :=
  ⟨rfl, rfl, by decide⟩

/-- C8 (amended): `CreateResource` does not share `CreateUser`'s conflict
shape: it performs no duplicate-id check — it always returns nil error,
stamps `created_at`/`updated_at` to now and stores the record under its id,
overwriting any record already held there (a subsequent lookup of that id
yields the new record), while leaving users and the setup gate untouched;
`CreateUser` alone rejects a duplicate key (username) with the conflict error
`ErrUserExists` and otherwise inserts the stamped record. -/
theorem C8_create_resource (db : Database) (now : Nat) (r : Resource) (u : User) :
    ((db.CreateResource now r).1 = .ok ()) ∧
    ((db.CreateResource now r).2.users = db.users) ∧
    ((db.CreateResource now r).2.setupComplete = db.setupComplete) ∧
    ((∀ x ∈ db.resources, x.id ≠ r.id) →
      (db.CreateResource now r).2.resources =
        db.resources ++ [{ r with created_at := now, updated_at := now }]) ∧
    ((∃ x ∈ db.resources, x.id = r.id) →
      (db.CreateResource now r).2.resources.length = db.resources.length) ∧
    ((db.CreateResource now r).2.GetResource r.id =
      .ok { r with created_at := now, updated_at := now }) ∧
    ((∃ v ∈ db.users, v.username = u.username) →
      db.CreateUser now u = (.error .userExists, db)) ∧
    ((∀ v ∈ db.users, v.username ≠ u.username) →
      (db.CreateUser now u).1 = .ok () ∧
      (db.CreateUser now u).2 =
        { db with users := db.users ++ [{ u with created_at := now, updated_at := now }] }) := by
  refine ⟨rfl, rfl, rfl, ?_, ?_, ?_, ?_, ?_⟩
  · intro hall
    have hany : ¬ ((db.resources.any fun x => x.id == r.id) = true) := by
      rw [List.any_eq_true]
      rintro ⟨x, hx, he⟩
      exact hall x hx (by simpa using he)
    unfold Database.CreateResource
    dsimp only
    rw [if_neg hany]
  · intro hex
    have hany : (db.resources.any fun x => x.id == r.id) = true := by
      rw [List.any_eq_true]
      obtain ⟨x, hx, he⟩ := hex
      exact ⟨x, hx, by simpa using he⟩
    unfold Database.CreateResource
    dsimp only
    rw [if_pos hany, List.length_map]
  · by_cases hb : (db.resources.any fun x => x.id == r.id) = true
    · unfold Database.CreateResource Database.GetResource
      dsimp only
      rw [if_pos hb, find?_map_replace db.resources r.id _ (by simp) hb]
    · unfold Database.CreateResource Database.GetResource
      dsimp only
      rw [if_neg hb]
      have hnone : db.resources.find? (fun x => x.id == r.id) = none := by
        rw [List.find?_eq_none]
        intro x hx hxx
        exact hb (List.any_eq_true.mpr ⟨x, hx, hxx⟩)
      rw [find?_append_none _ hnone, List.find?_cons_of_pos _ (by simp)]
  · intro hex
    have hany : (db.users.any fun v => v.username == u.username) = true := by
      rw [List.any_eq_true]
      obtain ⟨v, hv, he⟩ := hex
      exact ⟨v, hv, by simpa using he⟩
    unfold Database.CreateUser
    rw [if_pos hany]
  · intro hall
    have hany : ¬ ((db.users.any fun v => v.username == u.username) = true) := by
      rw [List.any_eq_true]
      rintro ⟨v, hv, he⟩
      exact hall v hv (by simpa using he)
    unfold Database.CreateUser
    rw [if_neg hany]
    exact ⟨rfl, rfl⟩

/-- Witness for C8: a fresh id is appended with both timestamps stamped to 5,
an already-used id leaves the collection length at 1 (the record is replaced,
not duplicated and not rejected), and a duplicate username is rejected by
`CreateUser` with the store unchanged. -/
theorem C8_create_resource_witness :
    ((Database.CreateResource
      { users := [{ id := "9", username := "alice", email := "a@x.com",
                    password := "h", role := "admin", created_by := "",
                    created_at := 0, updated_at := 0 }],
        setupComplete := true,
        resources := [{ id := "r1", name := "R", description := "", data := none,
                        created_by := "1", created_at := 0, updated_at := 0 }] } 5
      { id := "r2", name := "S", description := "", data := none,
        created_by := "2", created_at := 0, updated_at := 0 }).2.resources =
      [{ id := "r1", name := "R", description := "", data := none,
         created_by := "1", created_at := 0, updated_at := 0 },
       { id := "r2", name := "S", description := "", data := none,
         created_by := "2", created_at := 5, updated_at := 5 }]) ∧
    ((Database.CreateResource
      { users := [{ id := "9", username := "alice", email := "a@x.com",
                    password := "h", role := "admin", created_by := "",
                    created_at := 0, updated_at := 0 }],
        setupComplete := true,
        resources := [{ id := "r1", name := "R", description := "", data := none,
                        created_by := "1", created_at := 0, updated_at := 0 }] } 5
      { id := "r1", name := "T", description := "", data := none,
        created_by := "2", created_at := 0, updated_at := 0 }).2.resources.length = 1) ∧
    (Database.CreateUser
      { users := [{ id := "9", username := "alice", email := "a@x.com",
                    password := "h", role := "admin", created_by := "",
                    created_at := 0, updated_at := 0 }],
        setupComplete := true,
        resources := [{ id := "r1", name := "R", description := "", data := none,
                        created_by := "1", created_at := 0, updated_at := 0 }] } 5
      { id := "10", username := "alice", email := "z@x.com", password := "h2",
        role := "user", created_by := "", created_at := 0, updated_at := 0 } =
      (.error .userExists,
        { users := [{ id := "9", username := "alice", email := "a@x.com",
                      password := "h", role := "admin", created_by := "",
                      created_at := 0, updated_at := 0 }],
          setupComplete := true,
          resources := [{ id := "r1", name := "R", description := "", data := none,
                          created_by := "1", created_at := 0, updated_at := 0 }] })) := by
  refine ⟨?_, ?_, ?_⟩
  · exact (C8_create_resource
      { users := [{ id := "9", username := "alice", email := "a@x.com",
                    password := "h", role := "admin", created_by := "",
                    created_at := 0, updated_at := 0 }],
        setupComplete := true,
        resources := [{ id := "r1", name := "R", description := "", data := none,
                        created_by := "1", created_at := 0, updated_at := 0 }] } 5
      { id := "r2", name := "S", description := "", data := none,
        created_by := "2", created_at := 0, updated_at := 0 }
      { id := "", username := "", email := "", password := "", role := "",
        created_by := "", created_at := 0, updated_at := 0 }).2.2.2.1
      (by intro x hx; simp at hx; rw [hx]; decide)
  · exact (C8_create_resource
      { users := [{ id := "9", username := "alice", email := "a@x.com",
                    password := "h", role := "admin", created_by := "",
                    created_at := 0, updated_at := 0 }],
        setupComplete := true,
        resources := [{ id := "r1", name := "R", description := "", data := none,
                        created_by := "1", created_at := 0, updated_at := 0 }] } 5
      { id := "r1", name := "T", description := "", data := none,
        created_by := "2", created_at := 0, updated_at := 0 }
      { id := "", username := "", email := "", password := "", role := "",
        created_by := "", created_at := 0, updated_at := 0 }).2.2.2.2.1
      ⟨{ id := "r1", name := "R", description := "", data := none,
         created_by := "1", created_at := 0, updated_at := 0 }, by simp, rfl⟩
  · exact (C8_create_resource
      { users := [{ id := "9", username := "alice", email := "a@x.com",
                    password := "h", role := "admin", created_by := "",
                    created_at := 0, updated_at := 0 }],
        setupComplete := true,
        resources := [{ id := "r1", name := "R", description := "", data := none,
                        created_by := "1", created_at := 0, updated_at := 0 }] } 5
      { id := "r0", name := "Q", description := "", data := none,
        created_by := "", created_at := 0, updated_at := 0 }
      { id := "10", username := "alice", email := "z@x.com", password := "h2",
        role := "user", created_by := "", created_at := 0, updated_at := 0 }).2.2.2.2.2.2.1
      ⟨{ id := "9", username := "alice", email := "a@x.com", password := "h",
         role := "admin", created_by := "", created_at := 0, updated_at := 0 },
       by simp, rfl⟩

theorem GetUserByID_ok {db : Database} {id : String} {u : User}
    (h : db.GetUserByID id = .ok u) : u ∈ db.users ∧ u.id = id := by
  unfold Database.GetUserByID at h
  cases hf : db.users.find? (fun v => v.id == id) with
  | none => rw [hf] at h; cases h
  | some v =>
    rw [hf] at h
    injection h with hv
    subst hv
    exact ⟨List.mem_of_find?_eq_some hf, by simpa using List.find?_some hf⟩

theorem countP_username_eq_one {l : List User}
    (hnd : (l.map fun v => v.username).Nodup) {u : User} (hu : u ∈ l) :
    (l.countP fun v => v.username == u.username) = 1 := by
  induction l with
  | nil => cases hu
  | cons a l ih =>
    simp only [List.map_cons, List.nodup_cons] at hnd
    rcases List.mem_cons.mp hu with rfl | hu₁
    · have h0 : (l.countP fun v => v.username == u.username) = 0 := by
        rw [List.countP_eq_zero]
        intro v hv hvv
        exact hnd.1 ((beq_iff_eq.mp hvv) ▸ List.mem_map_of_mem _ hv)
      simp [List.countP_cons, h0]
    · have ha : (a.username == u.username) = false := by
        simp only [beq_eq_false_iff_ne, ne_eq]
        intro he
        exact hnd.1 (he ▸ List.mem_map_of_mem _ hu₁)
      simp [List.countP_cons, ha, ih hnd.2 hu₁]

theorem length_filter_username (l : List User) (uname : String) :
    (l.filter fun v => ¬ v.username == uname).length +
      (l.countP fun v => v.username == uname) = l.length := by
  induction l with
  | nil => rfl
  | cons a l ih =>
    simp only [List.countP_cons, List.filter_cons, List.length_cons]
    simp at ih ⊢
    by_cases ha : a.username = uname
    · simp [ha]
      omega
    · simp [ha]
      omega

/-- C10: the user-deletion handler wired to the HTTP surface resolves the path
id and invokes the plain `Database.DeleteUser`: exactly one user entry is
removed and the resource collection and the dynamic-route registry are left
entirely unchanged, so every resource whose `created_by` equals the deleted
user's id remains stored; the separate `DeleteUserWithCascade` store
operation — not invoked by this handler — would instead remove an admin's
owned resources. -/
theorem C10_delete_user_frame (s : ServerState) (userID : String) (u : User)
    (hget : s.db.GetUserByID userID = .ok u)
    (hnd : (s.db.users.map fun v => v.username).Nodup) :
    (DeleteUserHandler s userID).1 = .ok userID ∧
    (DeleteUserHandler s userID).2.db.users =
      s.db.users.filter (fun v => ¬ v.username == u.username) ∧
    (DeleteUserHandler s userID).2.db.users.length + 1 = s.db.users.length ∧
    (DeleteUserHandler s userID).2.db.resources = s.db.resources ∧
    (DeleteUserHandler s userID).2.registry = s.registry ∧
    (∀ x ∈ s.db.resources, x.created_by = u.id →
      x ∈ (DeleteUserHandler s userID).2.db.resources) ∧
    (∀ (db₂ : Database) (v : User),
      db₂.users.find? (fun w => w.username == v.username) = some v →
      v.IsAdmin = true →
      (db₂.DeleteUserWithCascade v.username).2.resources =
        db₂.resources.filter fun x => ¬ x.created_by == v.id) := by
  have hmem := (GetUserByID_ok hget).1
  have hany : (s.db.users.any fun v => v.username == u.username) = true :=
    List.any_eq_true.mpr ⟨u, hmem, by simp⟩
  have hdel : s.db.DeleteUser u.username =
      (.ok (), { s.db with
        users := s.db.users.filter (fun v => ¬ v.username == u.username) }) := by
    unfold Database.DeleteUser
    rw [if_pos hany]
  have hh : DeleteUserHandler s userID =
      (.ok userID, { s with db := { s.db with
        users := s.db.users.filter (fun v => ¬ v.username == u.username) } }) := by
    unfold DeleteUserHandler
    rw [hget]
    dsimp only
    rw [hdel]
  rw [hh]
  have hc1 := countP_username_eq_one hnd hmem
  have hc2 := length_filter_username s.db.users u.username
  refine ⟨rfl, rfl, by dsimp only; omega, rfl, rfl, ?_, ?_⟩
  · intro x hx _
    exact hx
  · intro db₂ v hfind hadm
    unfold Database.DeleteUserWithCascade
    rw [hfind]
    dsimp only
    rw [if_pos hadm]

/-- Witness for C10: deleting admin "1" removes only that user and leaves the
resource it created in the store. -/
theorem C10_delete_user_frame_witness :
    (DeleteUserHandler { db := { users := [{ id := "1", username := "alice", email := "a@x.com", password := "h1", role := "admin", created_by := "", created_at := 0, updated_at := 0 }, { id := "2", username := "bob", email := "b@x.com", password := "h2", role := "user", created_by := "1", created_at := 0, updated_at := 0 }], resources := [{ id := "r1", name := "R", description := "", data := none, created_by := "1", created_at := 0, updated_at := 0 }], setupComplete := true }, registry := [] } "1").1 = .ok "1" ∧
    (DeleteUserHandler { db := { users := [{ id := "1", username := "alice", email := "a@x.com", password := "h1", role := "admin", created_by := "", created_at := 0, updated_at := 0 }, { id := "2", username := "bob", email := "b@x.com", password := "h2", role := "user", created_by := "1", created_at := 0, updated_at := 0 }], resources := [{ id := "r1", name := "R", description := "", data := none, created_by := "1", created_at := 0, updated_at := 0 }], setupComplete := true }, registry := [] } "1").2.db.resources = [{ id := "r1", name := "R", description := "", data := none, created_by := "1", created_at := 0, updated_at := 0 }] :=
  ⟨(C10_delete_user_frame { db := { users := [{ id := "1", username := "alice", email := "a@x.com", password := "h1", role := "admin", created_by := "", created_at := 0, updated_at := 0 }, { id := "2", username := "bob", email := "b@x.com", password := "h2", role := "user", created_by := "1", created_at := 0, updated_at := 0 }], resources := [{ id := "r1", name := "R", description := "", data := none, created_by := "1", created_at := 0, updated_at := 0 }], setupComplete := true }, registry := [] } "1" { id := "1", username := "alice", email := "a@x.com", password := "h1", role := "admin", created_by := "", created_at := 0, updated_at := 0 } rfl (by decide)).1,
   (C10_delete_user_frame { db := { users := [{ id := "1", username := "alice", email := "a@x.com", password := "h1", role := "admin", created_by := "", created_at := 0, updated_at := 0 }, { id := "2", username := "bob", email := "b@x.com", password := "h2", role := "user", created_by := "1", created_at := 0, updated_at := 0 }], resources := [{ id := "r1", name := "R", description := "", data := none, created_by := "1", created_at := 0, updated_at := 0 }], setupComplete := true }, registry := [] } "1" { id := "1", username := "alice", email := "a@x.com", password := "h1", role := "admin", created_by := "", created_at := 0, updated_at := 0 } rfl (by decide)).2.2.2.1⟩

/-- Witness for C3: the resource created by "a" is not listed for creator "b"
(non-super-admin), and the ownership-aware store lookup by the unrelated
admin B (id "b", created by nobody) yields NotFound. -/
theorem C3_ownership_isolation_witness :
    ({ id := "r1", name := "R", description := "", data := none, created_by := "a", created_at := 0, updated_at := 0 } : Resource) ∉
      Database.ListResourcesByCreator { users := [], resources := [{ id := "r1", name := "R", description := "", data := none, created_by := "a", created_at := 0, updated_at := 0 }], setupComplete := true } "b" false ∧
    Database.GetResourceWithOwnership { users := [], resources := [{ id := "r1", name := "R", description := "", data := none, created_by := "a", created_at := 0, updated_at := 0 }], setupComplete := true } "r1" "b" false "" =
      .error .resourceNotFound :=
  ⟨(C3_ownership_isolation { users := [], resources := [{ id := "r1", name := "R", description := "", data := none, created_by := "a", created_at := 0, updated_at := 0 }], setupComplete := true } "b" "b" "" initState "r1" { id := "r1", name := "R", description := "", data := none, created_by := "a", created_at := 0, updated_at := 0 }).2.1 (by decide),
   (C3_ownership_isolation { users := [], resources := [{ id := "r1", name := "R", description := "", data := none, created_by := "a", created_at := 0, updated_at := 0 }], setupComplete := true } "b" "b" "" initState "r1" { id := "r1", name := "R", description := "", data := none, created_by := "a", created_at := 0, updated_at := 0 }).2.2.1 "r1"
     { id := "r1", name := "R", description := "", data := none, created_by := "a", created_at := 0, updated_at := 0 } rfl (by decide) (by decide)⟩